import Mathlib

/-!
# Timeline markers (gtk2_ardour/marker.cc)

A shallow embedding of `Marker` from `gtk2_ardour/marker.cc`.

Conventions of the embedding:

* `double` values (`ArdourCanvas::Coord`, label limits, offsets) are exact rationals;
  rounding of floating point arithmetic is not represented.
* `int` values are mathematical integers; the conversion `double -> int` truncates toward zero.
  Pixel widths are screen sizes, far inside the range of `int`.
* `uint32_t` colours are natural numbers.
* The collaborators of the marker (profile switch, time to pixel mapper, font metrics, colour
  configuration, coordinate transforms of the canvas) are the fields of `Env`.
* A canvas node is a record of the attributes that `marker.cc` writes. A pointer that may be
  null is an `Option`.
-/

namespace ArdourCanvas

/-- Modelled from the spec: the canvas coordinate pair `ArdourCanvas::Duple` (canvas/types.h is
not part of the sources at hand). -/
structure Duple where
  x : ℚ
  y : ℚ
deriving DecidableEq

/-- Modelled from the spec: the edges of a rectangle outline, `ArdourCanvas::Rectangle::What`. -/
inductive What
  | LEFT | RIGHT | TOP | BOTTOM
deriving DecidableEq

/-- Modelled from the spec: a container node (`ArdourCanvas::Container`): its position and whether
it is visible. -/
structure Container where
  position : Duple
  visible : Bool
deriving DecidableEq

/-- Modelled from the spec: a rectangle node (`ArdourCanvas::Rectangle`): geometry, fill, outline. -/
structure Rectangle where
  x0 : ℚ
  y0 : ℚ
  x1 : ℚ
  y1 : ℚ
  fill : Bool
  fill_color : Nat
  outline_color : Nat
  outline_what : List What
  visible : Bool
deriving DecidableEq

/-- Modelled from the spec: a polygon node (`ArdourCanvas::Polygon`): its outline and colours. -/
structure Polygon where
  points : List Duple
  fill_color : Nat
  outline_color : Nat
  visible : Bool
deriving DecidableEq

/-- Modelled from the spec: a text node (`ArdourCanvas::Text`): position, colour, text, the width
it is clamped to, visibility. -/
structure Text where
  position : Duple
  color : Nat
  text : String
  clamped_width : ℚ
  visible : Bool
deriving DecidableEq

/-- Modelled from the spec: a line node (`ArdourCanvas::Line`): end points, outline colour,
visibility. -/
structure Line where
  x0 : ℚ
  y0 : ℚ
  x1 : ℚ
  y1 : ℚ
  outline_color : Nat
  visible : Bool
deriving DecidableEq

end ArdourCanvas

open ArdourCanvas

/-- The marker types, `Marker::Type` of marker.h, in the order of the enumeration. -/
inductive MarkerType
  | Mark | Tempo | Meter | SessionStart | SessionEnd | RangeStart | RangeEnd
  | LoopStart | LoopEnd | PunchIn | PunchOut
deriving DecidableEq

/-- The collaborators of a marker. None of them is implemented in marker.cc; each is a value the
marker code reads.

* `trx`: `ARDOUR::Profile->get_trx()`, the alternate display profile.
* `sample_to_pixel`: `PublicEditor::sample_to_pixel`.
* `pixel_width`: `pixel_width (text, name_font)`.
* `pixel_size_width`: the width that `pixel_size (text, name_font, width, height)` stores.
* `ink_pixel_height`: the height that `get_ink_pixel_size` stores for the layout of the text.
* `EditPoint`: `ARDOUR_UI::config()->get_canvasvar_EditPoint()`.
* `rgba_to_color`: `ArdourCanvas::rgba_to_color`.
* `UINT_RGBA_CHANGE_A`: the macro of rgb_macros.h.
* `COORD_MAX`: `ArdourCanvas::COORD_MAX`.
* `canvas_origin_x`: the x coordinate of `group->canvas_origin()` for a group at the given x
  position (the offsets of the parents of the group are fixed).
* `canvas_to_item_x`: the x coordinate of `_track_canvas_line->canvas_to_item (Duple (x, 0))`.
* `default_fill_color`, `default_outline_color`, `default_text_color`: the colours of a node
  that has just been created. -/
structure Env where
  trx : Bool
  sample_to_pixel : Int → ℚ
  pixel_width : String → Int
  pixel_size_width : String → Int
  ink_pixel_height : String → Int
  EditPoint : Nat
  rgba_to_color : ℚ → ℚ → ℚ → ℚ → Nat
  UINT_RGBA_CHANGE_A : Nat → Nat → Nat
  COORD_MAX : ℚ
  canvas_origin_x : ℚ → ℚ
  canvas_to_item_x : ℚ → ℚ
  default_fill_color : Nat
  default_outline_color : Nat
  default_text_color : Nat

/-- The largest finite `double`, the initial value of both label limits. -/
def DBL_MAX : ℚ := (2 ^ 53 - 1) * 2 ^ 971

/-- The conversion of a `double` to an `int`: truncation toward zero. -/
def double_to_int (d : ℚ) : Int :=
  if 0 ≤ d then Int.floor d else Int.ceil d

/-- The badge of a marker: the rectangle `_scene_change_rect` and the text `_scene_change_text`.
The two nodes are created together and deleted together. -/
structure SceneChange where
  rect : Rectangle
  text : Text
deriving DecidableEq

/-- The members of `Marker` that marker.cc reads or writes, and `nodes_created`, which counts the
canvas nodes allocated with `new` on behalf of the marker. -/
structure Marker where
  group : Container
  mark : Option Polygon
  _name_item : Text
  _name_background : Rectangle
  _track_canvas_line : Option Line
  _scene_change : Option SceneChange
  _name : String
  unit_position : ℚ
  frame_position : Int
  _shift : ℚ
  _type : MarkerType
  name_height : Int
  _selected : Bool
  _shown : Bool
  _line_shown : Bool
  _canvas_height : Option ℚ
  _color : Nat
  _left_label_limit : ℚ
  _right_label_limit : ℚ
  _label_offset : ℚ
  _have_scene_change : Bool
  nodes_created : Nat
deriving DecidableEq

namespace Marker

/-- The constant `Marker::_marker_height`. -/
def _marker_height : ℚ := 17

/-- The constant `name_padding` of marker.cc. -/
def name_padding : ℚ := 10

/-- Modelled from the spec: the constructor of the rectangle node of the canvas library, which is
not among the sources. A rectangle as `new ArdourCanvas::Rectangle (group)` leaves it: the empty
rectangle, filled, all four edges outlined, visible. -/
def new_Rectangle (env : Env) : Rectangle :=
  { x0 := 0, y0 := 0, x1 := 0, y1 := 0, fill := true,
    fill_color := env.default_fill_color, outline_color := env.default_outline_color,
    outline_what := [What.LEFT, What.RIGHT, What.TOP, What.BOTTOM], visible := true }

/-- Modelled from the spec: the constructor of the text node of the canvas library, which is not
among the sources. A text node as `new ArdourCanvas::Text (group)` leaves it: at the origin,
empty, not clamped, visible. -/
def new_Text (env : Env) : Text :=
  { position := ⟨0, 0⟩, color := env.default_text_color, text := "",
    clamped_width := env.COORD_MAX, visible := true }

/-- Modelled from the spec: the constructor of the line node of the canvas library, which is not
among the sources. A line as `new ArdourCanvas::Line (...)` leaves it. -/
def new_Line (env : Env) : Line :=
  { x0 := 0, y0 := 0, x1 := 0, y1 := 0, outline_color := env.default_outline_color,
    visible := true }

/-- The outline that the `switch` of `Marker::add_polygon` pushes for a type. -/
def add_polygon_points (type : MarkerType) : List Duple :=
  match type with
  | .Mark =>
    [⟨0.0, 0.0⟩, ⟨6.0, 0.0⟩, ⟨6.0, 5.0⟩, ⟨3.0, _marker_height⟩, ⟨0.0, 5.0⟩, ⟨0.0, 0.0⟩]
  | .Tempo | .Meter =>
    [⟨3.0, 0.0⟩, ⟨6.0, 5.0⟩, ⟨6.0, 10.0⟩, ⟨0.0, 10.0⟩, ⟨0.0, 5.0⟩, ⟨3.0, 0.0⟩]
  | .SessionStart | .RangeStart =>
    [⟨0.0, 0.0⟩, ⟨6.5, 6.5⟩, ⟨0.0, _marker_height⟩, ⟨0.0, 0.0⟩]
  | .SessionEnd | .RangeEnd =>
    [⟨6.5, 6.5⟩, ⟨_marker_height, 0.0⟩, ⟨_marker_height, _marker_height⟩, ⟨6.5, 6.5⟩]
  | .LoopStart =>
    [⟨0.0, 0.0⟩, ⟨_marker_height, _marker_height⟩, ⟨0.0, _marker_height⟩, ⟨0.0, 0.0⟩]
  | .LoopEnd =>
    [⟨_marker_height, 0.0⟩, ⟨_marker_height, _marker_height⟩, ⟨0.0, _marker_height⟩,
      ⟨_marker_height, 0.0⟩]
  | .PunchIn =>
    [⟨0.0, 0.0⟩, ⟨_marker_height, 0.0⟩, ⟨0.0, _marker_height⟩, ⟨0.0, 0.0⟩]
  | .PunchOut =>
    [⟨0.0, 0.0⟩, ⟨12.0, 0.0⟩, ⟨12.0, 12.0⟩, ⟨0.0, 0.0⟩]

/-- The value that the `switch` of `Marker::add_polygon` assigns to `_shift`. -/
def add_polygon_shift (type : MarkerType) : ℚ :=
  match type with
  | .Mark => 3
  | .Tempo | .Meter => 3
  | .SessionStart | .RangeStart => 0
  | .SessionEnd | .RangeEnd => _marker_height
  | .LoopStart => 0
  | .LoopEnd => _marker_height
  | .PunchIn => 0
  | .PunchOut => _marker_height

/-- The value that the `switch` of `Marker::add_polygon` assigns to `_label_offset`. -/
def add_polygon_label_offset (type : MarkerType) : ℚ :=
  match type with
  | .Mark => 8.0
  | .Tempo | .Meter => 8.0
  | .SessionStart | .RangeStart => _marker_height
  | .SessionEnd | .RangeEnd => 6.0
  | .LoopStart => 12.0
  | .LoopEnd => 0.0
  | .PunchIn => _marker_height
  | .PunchOut => 0.0

/-- The method `Marker::add_polygon`: collect the outline of the type, assign `_shift` and `_label_offset`,
then create the polygon `mark` with that outline. -/
def add_polygon (env : Env) (type : MarkerType) (m : Marker) : Marker :=
  { m with
    _shift := add_polygon_shift type
    _label_offset := add_polygon_label_offset type
    mark := some { points := add_polygon_points type, fill_color := env.default_fill_color,
                   outline_color := env.default_outline_color, visible := true }
    nodes_created := m.nodes_created + 1 }

/-- The method `Marker::setup_line`: when the visibility condition holds, create the line if there is none,
place it at the canvas x of the group plus `_shift`, colour it and show it; otherwise hide the line
if there is one. -/
def setup_line (env : Env) (m : Marker) : Marker :=
  if (env.trx && m._type == MarkerType.Mark)
      || (m._shown && ((!env.trx && m._selected) || m._line_shown)) then
    let line : Line := match m._track_canvas_line with
      | none => new_Line env
      | some l => l
    let created : Nat := match m._track_canvas_line with
      | none => m.nodes_created + 1
      | some _ => m.nodes_created
    let g_x : ℚ := env.canvas_origin_x m.group.position.x
    let d_x : ℚ := env.canvas_to_item_x (g_x + m._shift)
    { m with
      _track_canvas_line := some
        { line with
          x0 := d_x
          x1 := d_x
          y0 := _marker_height
          y1 := env.COORD_MAX
          outline_color :=
            if env.trx then m._color
            else (if m._selected then env.EditPoint else m._color)
          visible := true }
      nodes_created := created }
  else
    match m._track_canvas_line with
    | some l => { m with _track_canvas_line := some { l with visible := false } }
    | none => m

/-- The method `Marker::set_selected`. -/
def set_selected (env : Env) (s : Bool) (m : Marker) : Marker :=
  setup_line env { m with _selected := s }

/-- The method `Marker::set_show_line`. -/
def set_show_line (env : Env) (s : Bool) (m : Marker) : Marker :=
  setup_line env { m with _line_shown := s }

/-- The method `Marker::canvas_height_set`. -/
def canvas_height_set (env : Env) (h : ℚ) (m : Marker) : Marker :=
  setup_line env { m with _canvas_height := some h }

/-- The method `Marker::label_on_left`: true if the label is on the left of the mark. -/
def label_on_left (m : Marker) : Bool :=
  m._type == MarkerType.SessionEnd || m._type == MarkerType.RangeEnd
    || m._type == MarkerType.LoopEnd || m._type == MarkerType.PunchOut

/-- The local `limit` of `Marker::setup_name_display`. -/
def limit (m : Marker) : ℚ :=
  if m.label_on_left then m._left_label_limit else m._right_label_limit

/-- The local `name_width` of `Marker::setup_name_display` when it is tested against zero: the
measured width of the name plus the margin of the profile, capped by `limit`, as an `int`. -/
def name_width (env : Env) (m : Marker) : Int :=
  if env.trx then
    double_to_int (min ((env.pixel_width m._name : ℚ) + 2 * name_padding) m.limit)
  else
    double_to_int (min ((env.pixel_width m._name : ℚ) + 2) m.limit)

/-- The first half of `Marker::setup_name_display`, the badge: with `_have_scene_change` the
rectangle and the text are created if absent (and then `_label_offset` grows by the width of the
rectangle) and both are set up; without it both are deleted if present. The local `r` starts as
the empty rectangle `ArdourCanvas::Rect ()`, so that `r.x1 + name_width + 7.0` is the width of the
badge text plus 7. -/
def setup_scene_change (env : Env) (m : Marker) : Marker :=
  if m._have_scene_change then
    let r_x0 : ℚ := 2.0
    let r_x1 : ℚ := 0 + (env.pixel_size_width "MIDI" : ℚ) + 7.0
    let sc : SceneChange := match m._scene_change with
      | none => { rect := new_Rectangle env, text := new_Text env }
      | some sc => sc
    let offset : ℚ := match m._scene_change with
      | none => m._label_offset + r_x1
      | some _ => m._label_offset
    let created : Nat := match m._scene_change with
      | none => m.nodes_created + 2
      | some _ => m.nodes_created
    let text_y : ℚ := (_marker_height / 2.0) - ((m.name_height : ℚ) / 2.0)
    let r_y0 : ℚ := text_y - 2.0
    let r_y1 : ℚ := r_y0 + (m.name_height : ℚ) + 4.0
    { m with
      _label_offset := offset
      nodes_created := created
      _scene_change := some
        { rect :=
            { sc.rect with
              outline_color := env.rgba_to_color 1.0 1.0 1.0 0.95
              fill := false
              x0 := r_x0
              y0 := r_y0
              x1 := r_x1
              y1 := r_y1 }
          text :=
            { sc.text with
              color := env.rgba_to_color 1.0 1.0 1.0 0.95
              text := "MIDI"
              position := ⟨4.0, text_y⟩ } } }
  else
    { m with _scene_change := none }

/-- The local `scene_change_width` of `Marker::setup_name_display`: the right edge of the badge
rectangle as an `int` with `_have_scene_change`, zero without. -/
def scene_change_width (env : Env) (m : Marker) : Int :=
  if m._have_scene_change then
    double_to_int (0 + (env.pixel_size_width "MIDI" : ℚ) + 7.0)
  else 0

/-- The second half of `Marker::setup_name_display`, from the test of `name_width` on: a name of
width zero is hidden; any other is shown, placed, clamped, and the background is put around it;
the background always gets its vertical extent. `m1` is the marker as the badge half left it. -/
def setup_name_item (env : Env) (name_width scene_change_width : Int) (m1 : Marker) : Marker :=
  let m2 : Marker :=
    if name_width = 0 then
      { m1 with _name_item := { m1._name_item with visible := false } }
    else
      let shown : Text := { m1._name_item with visible := true }
      let placed : Text :=
        if env.trx then
          { shown with position := ⟨m1._label_offset, shown.position.y⟩ }
        else if m1.label_on_left then
          { shown with position := ⟨-(name_width : ℚ), shown.position.y⟩ }
        else shown
      let item : Text := { placed with clamped_width := (name_width : ℚ), text := m1._name }
      let bg : Rectangle :=
        if env.trx then
          { m1._name_background with
            x0 := item.position.x - m1._label_offset
            x1 := item.position.x - m1._label_offset + name_width + scene_change_width }
        else if m1.label_on_left then
          { m1._name_background with
            x0 := item.position.x - 2
            x1 := item.position.x + name_width + m1._shift + scene_change_width }
        else
          { m1._name_background with
            x0 := item.position.x - m1._label_offset + 2
            x1 := item.position.x + name_width + scene_change_width }
      { m1 with _name_item := item, _name_background := bg }
  { m2 with
    _name_background := { m2._name_background with y0 := 0, y1 := _marker_height + 1.0 } }

/-- The method `Marker::setup_name_display`: the limit of the side of the label, the badge, the width of the
name, then the name item and its background. -/
def setup_name_display (env : Env) (m : Marker) : Marker :=
  setup_name_item env (name_width env m) (scene_change_width env m) (setup_scene_change env m)

/-- The method `Marker::set_name`. -/
def set_name (env : Env) (new_name : String) (m : Marker) : Marker :=
  setup_name_display env { m with _name := new_name }

/-- The method `Marker::set_position`: the pixel position is computed and given to the group, the line is
set up, then the time is stored. -/
def set_position (env : Env) (frame : Int) (m : Marker) : Marker :=
  let unit_position : ℚ := env.sample_to_pixel frame - m._shift
  let m1 : Marker :=
    { m with
      unit_position := unit_position
      group := { m.group with position := ⟨unit_position, m.group.position.y⟩ } }
  { setup_line env m1 with frame_position := frame }

/-- The method `Marker::reposition`. -/
def reposition (env : Env) (m : Marker) : Marker :=
  set_position env m.frame_position m

/-- The method `Marker::show`. -/
def «show» (env : Env) (m : Marker) : Marker :=
  setup_line env { m with _shown := true, group := { m.group with visible := true } }

/-- The method `Marker::hide`. -/
def hide (env : Env) (m : Marker) : Marker :=
  setup_line env { m with _shown := false, group := { m.group with visible := false } }

/-- The method `Marker::set_color_rgba`: the colour goes to the polygon if there is one, to the line if there
is one and the marker is not selected, and, with the alpha replaced, to the background. -/
def set_color_rgba (env : Env) (c : Nat) (m : Marker) : Marker :=
  { m with
    _color := c
    mark := m.mark.map (fun p => { p with fill_color := c, outline_color := c })
    _track_canvas_line :=
      if !m._selected then m._track_canvas_line.map (fun l => { l with outline_color := c })
      else m._track_canvas_line
    _name_background :=
      { m._name_background with
        fill := true
        fill_color := env.UINT_RGBA_CHANGE_A c 0x70
        outline_color := env.rgba_to_color 1.0 1.0 1.0 0.20
        outline_what :=
          if env.trx then [What.TOP, What.LEFT, What.RIGHT]
          else m._name_background.outline_what } }

/-- The method `Marker::set_left_label_limit`: the pixels available to the left of the centre of the marker,
less the size of the marker and not below zero. -/
def set_left_label_limit (env : Env) (p : ℚ) (m : Marker) : Marker :=
  let l : ℚ := p - _marker_height
  let m1 : Marker := { m with _left_label_limit := if l < 0 then 0 else l }
  if m1.label_on_left then setup_name_display env m1 else m1

/-- The method `Marker::set_right_label_limit`: the pixels available to the right of the centre of the
marker, less the size of the marker and not below zero. -/
def set_right_label_limit (env : Env) (p : ℚ) (m : Marker) : Marker :=
  let l : ℚ := p - _marker_height
  let m1 : Marker := { m with _right_label_limit := if l < 0 then 0 else l }
  if !m1.label_on_left then setup_name_display env m1 else m1

/-- The method `Marker::set_has_scene_change`. -/
def set_has_scene_change (env : Env) (yn : Bool) (m : Marker) : Marker :=
  setup_name_display env { m with _have_scene_change := yn }

/-- The constructor `Marker::Marker`. The member `_shift` has no initialiser, and the constructor
reads it before `add_polygon` assigns it: `shift_uninit` is the value the member holds then. The
nodes `group`, `_name_background` and `_name_item` are never null once the constructor is done;
the record holds them from the start. -/
def ctor (env : Env) (shift_uninit : ℚ) (rgba : Nat) ( annotation : String)
    (type : MarkerType) (frame : Int) : Marker :=
  let unit_position : ℚ := env.sample_to_pixel frame - shift_uninit
  let m0 : Marker :=
    { group := { position := ⟨unit_position, 0⟩, visible := true }
      mark := none
      _name_item := new_Text env
      _name_background := new_Rectangle env
      _track_canvas_line := none
      _scene_change := none
      _name := ""
      unit_position := unit_position
      frame_position := frame
      _shift := shift_uninit
      _type := type
      name_height := env.ink_pixel_height "Hg"
      _selected := false
      _shown := false
      _line_shown := false
      _canvas_height := none
      _color := rgba
      _left_label_limit := DBL_MAX
      _right_label_limit := DBL_MAX
      _label_offset := 0
      _have_scene_change := false
      nodes_created := 3 }
  let m1 : Marker :=
    if !env.trx then add_polygon env type m0 else { m0 with _label_offset := name_padding }
  let m2 : Marker := set_color_rgba env rgba m1
  let m3 : Marker := if type = MarkerType.Mark then { m2 with _line_shown := true } else m2
  let m4 : Marker :=
    { m3 with
      _name_item :=
        { m3._name_item with
          color := env.rgba_to_color 1.0 1.0 1.0 0.95
          position :=
            ⟨m3._label_offset, (_marker_height / 2.0) - ((m3.name_height : ℚ) / 2.0)⟩ } }
  set_name env annotation m4

/-- The public mutators of a marker, as calls with their arguments. -/
inductive Op
  | set_selected (s : Bool)
  | set_show_line (s : Bool)
  | canvas_height_set (h : ℚ)
  | set_name (new_name : String)
  | set_position (frame : Int)
  | reposition
  | «show»
  | hide
  | set_color_rgba (c : Nat)
  | set_left_label_limit (p : ℚ)
  | set_right_label_limit (p : ℚ)
  | set_has_scene_change (yn : Bool)

/-- One call of a mutator. -/
def Op.apply (env : Env) (op : Op) (m : Marker) : Marker :=
  match op with
  | .set_selected s => m.set_selected env s
  | .set_show_line s => m.set_show_line env s
  | .canvas_height_set h => m.canvas_height_set env h
  | .set_name n => m.set_name env n
  | .set_position f => m.set_position env f
  | .reposition => m.reposition env
  | .«show» => Marker.«show» env m
  | .hide => m.hide env
  | .set_color_rgba c => m.set_color_rgba env c
  | .set_left_label_limit p => m.set_left_label_limit env p
  | .set_right_label_limit p => m.set_right_label_limit env p
  | .set_has_scene_change yn => m.set_has_scene_change env yn

/-- A sequence of mutator calls, first call first. -/
def run (env : Env) (ops : List Op) (m : Marker) : Marker :=
  ops.foldl (fun acc op => op.apply env acc) m

/-- Whether the extension line is on screen: the line exists and is visible. -/
def line_shown (m : Marker) : Bool :=
  match m._track_canvas_line with
  | some l => l.visible
  | none => false

/-- The shift of a type as the specification words it: 3 for Mark, Tempo and Meter, 0 for
SessionStart, RangeStart, LoopStart and PunchIn, 17 for SessionEnd, RangeEnd, LoopEnd and
PunchOut. -/
def spec_shift (type : MarkerType) : ℚ :=
  if type = MarkerType.Mark ∨ type = MarkerType.Tempo ∨ type = MarkerType.Meter then 3
  else if type = MarkerType.SessionStart ∨ type = MarkerType.RangeStart
      ∨ type = MarkerType.LoopStart ∨ type = MarkerType.PunchIn then 0
  else 17

/-- A concrete set of collaborators, for the examples: every time maps to pixel 250, a text is 6
pixels wide per character, the badge text "MIDI" is 20 pixels wide, the font is 9 pixels high. -/
def demo_env (trx : Bool) : Env :=
  { trx := trx
    sample_to_pixel := fun _ => 250
    pixel_width := fun s => 6 * (s.length : Int)
    pixel_size_width := fun _ => 20
    ink_pixel_height := fun _ => 9
    EditPoint := 0x0000ffff
    rgba_to_color := fun _ _ _ _ => 0xfffffff2
    UINT_RGBA_CHANGE_A := fun c a => c / 256 * 256 + a
    COORD_MAX := 17 * 10 ^ 306
    canvas_origin_x := fun x => x
    canvas_to_item_x := fun x => x
    default_fill_color := 0x000000ff
    default_outline_color := 0x000000ff
    default_text_color := 0x000000ff }

/-- The marker of the scenario of the specification, fresh from the constructor: type Mark, time
1000, colour 0xff0000ff, name "Verse", built over a zero `_shift` member. -/
def demo_marker (trx : Bool) : Marker :=
  ctor (demo_env trx) 0 0xff0000ff "Verse" MarkerType.Mark 1000

/-- The raw width of the label as the specification words it: the measured width of the name plus
the margin of the profile (twice the padding in the alternate profile, 2 in the default one). -/
def raw_width (env : Env) (m : Marker) : ℚ :=
  (env.pixel_width m._name : ℚ) + (if env.trx then 2 * name_padding else 2)

/-- The outline of a type as the table of the specification lists it, with H = 17. -/
def spec_outline (type : MarkerType) : List Duple :=
  match type with
  | .Mark => [⟨0, 0⟩, ⟨6, 0⟩, ⟨6, 5⟩, ⟨3, 17⟩, ⟨0, 5⟩, ⟨0, 0⟩]
  | .Tempo => [⟨3, 0⟩, ⟨6, 5⟩, ⟨6, 10⟩, ⟨0, 10⟩, ⟨0, 5⟩, ⟨3, 0⟩]
  | .Meter => [⟨3, 0⟩, ⟨6, 5⟩, ⟨6, 10⟩, ⟨0, 10⟩, ⟨0, 5⟩, ⟨3, 0⟩]
  | .SessionStart => [⟨0, 0⟩, ⟨13 / 2, 13 / 2⟩, ⟨0, 17⟩, ⟨0, 0⟩]
  | .RangeStart => [⟨0, 0⟩, ⟨13 / 2, 13 / 2⟩, ⟨0, 17⟩, ⟨0, 0⟩]
  | .SessionEnd => [⟨13 / 2, 13 / 2⟩, ⟨17, 0⟩, ⟨17, 17⟩, ⟨13 / 2, 13 / 2⟩]
  | .RangeEnd => [⟨13 / 2, 13 / 2⟩, ⟨17, 0⟩, ⟨17, 17⟩, ⟨13 / 2, 13 / 2⟩]
  | .LoopStart => [⟨0, 0⟩, ⟨17, 17⟩, ⟨0, 17⟩, ⟨0, 0⟩]
  | .LoopEnd => [⟨17, 0⟩, ⟨17, 17⟩, ⟨0, 17⟩, ⟨17, 0⟩]
  | .PunchIn => [⟨0, 0⟩, ⟨17, 0⟩, ⟨0, 17⟩, ⟨0, 0⟩]
  | .PunchOut => [⟨0, 0⟩, ⟨12, 0⟩, ⟨12, 12⟩, ⟨0, 0⟩]

/-- The label offset of a type as the table of the specification lists it, with H = 17. -/
def spec_label_offset (type : MarkerType) : ℚ :=
  match type with
  | .Mark => 8
  | .Tempo => 8
  | .Meter => 8
  | .SessionStart => 17
  | .RangeStart => 17
  | .SessionEnd => 6
  | .RangeEnd => 6
  | .LoopStart => 12
  | .LoopEnd => 0
  | .PunchIn => 17
  | .PunchOut => 0

/-- A marker with its label on the left, fresh from the constructor: type SessionEnd, time 1000,
colour 0xff0000ff, name "End", built over a zero `_shift` member. -/
def demo_end_marker (trx : Bool) : Marker :=
  ctor (demo_env trx) 0 0xff0000ff "End" MarkerType.SessionEnd 1000

/-- A marker whose name measures zero pixels, fresh from the constructor: type Mark, time 1000,
colour 0xff0000ff, the empty name, built over a zero `_shift` member. -/
def demo_empty_marker (trx : Bool) : Marker :=
  ctor (demo_env trx) 0 0xff0000ff "" MarkerType.Mark 1000

/-- The colour that the specification gives the extension line of a marker: the colour of the
marker in the alternate profile; in the default profile the edit point colour if the marker is
selected and the colour of the marker otherwise. -/
def spec_line_color (env : Env) (m : Marker) : Nat :=
  if env.trx then m._color else (if m._selected then env.EditPoint else m._color)

/-- The line colour invariant of the specification: a line that is on screen has the colour that
`spec_line_color` gives. -/
def line_color_ok (env : Env) (m : Marker) : Prop :=
  ∀ l : Line, m._track_canvas_line = some l → l.visible = true →
    l.outline_color = spec_line_color env m

/-- The canvas nodes that a marker can own, by the member that points to them. -/
inductive Node
  | group | mark | _name_item | _name_background | _scene_change_rect | _scene_change_text
  | _track_canvas_line
deriving DecidableEq

/-- The nodes below `group`: the background, the name item, the polygon if there is one, the
badge rectangle and text if there are any. Each was created with `group` as its parent, and the
comment in the destructor says that destroying the group destroys them. -/
def group_contents (m : Marker) : List Node :=
  [Node._name_background, Node._name_item]
    ++ (if m.mark.isSome then [Node.mark] else [])
    ++ (if m._scene_change.isSome then [Node._scene_change_rect, Node._scene_change_text]
        else [])

/-- The nodes that a marker owns: the group with its contents, and the line if there is one. -/
def owned_nodes (m : Marker) : List Node :=
  Node.group :: group_contents m
    ++ (if m._track_canvas_line.isSome then [Node._track_canvas_line] else [])

/-- A step of the destructor that other code can observe: the emission of `CatchDeletion` with the
marker, or the release of nodes by a `delete`. -/
inductive DtorStep
  | CatchDeletion (marker : Marker)
  | delete (nodes : List Node)

/-- The destructor `Marker::~Marker`, as the sequence of its steps: `CatchDeletion (this)`, then
`delete group`, which destroys the group and its contents, then `delete _track_canvas_line`, which
releases the line if the pointer is not null. -/
def dtor (m : Marker) : List DtorStep :=
  [ DtorStep.CatchDeletion m,
    DtorStep.delete (Node.group :: group_contents m),
    DtorStep.delete (if m._track_canvas_line.isSome then [Node._track_canvas_line] else []) ]

/-- The condition of the `if` of `Marker::setup_line`, under which the line is created if absent
and shown. -/
def line_condition (env : Env) (m : Marker) : Bool :=
  (env.trx && m._type == MarkerType.Mark)
    || (m._shown && ((!env.trx && m._selected) || m._line_shown))

/-- Whether the body of a mutator calls `setup_line`. -/
def Op.calls_setup_line (op : Op) : Bool :=
  match op with
  | .set_selected _ => true
  | .set_show_line _ => true
  | .canvas_height_set _ => true
  | .set_position _ => true
  | .reposition => true
  | .«show» => true
  | .hide => true
  | .set_name _ => false
  | .set_color_rgba _ => false
  | .set_left_label_limit _ => false
  | .set_right_label_limit _ => false
  | .set_has_scene_change _ => false

end Marker

/-! ## Frame lemmas: what `setup_line` and `setup_name_display` leave alone -/

namespace Marker

theorem setup_line_frame (env : Env) (m : Marker) :
    (setup_line env m)._shift = m._shift ∧ (setup_line env m)._type = m._type
    ∧ (setup_line env m).unit_position = m.unit_position
    ∧ (setup_line env m).frame_position = m.frame_position
    ∧ (setup_line env m).group = m.group
    ∧ (setup_line env m)._selected = m._selected
    ∧ (setup_line env m)._shown = m._shown
    ∧ (setup_line env m)._line_shown = m._line_shown
    ∧ (setup_line env m)._color = m._color := by
  unfold setup_line
  split
  · simp
  · split <;> simp

@[simp] theorem setup_line_shift (env : Env) (m : Marker) :
    (setup_line env m)._shift = m._shift := (setup_line_frame env m).1

@[simp] theorem setup_line_type (env : Env) (m : Marker) :
    (setup_line env m)._type = m._type := (setup_line_frame env m).2.1

@[simp] theorem setup_line_unit_position (env : Env) (m : Marker) :
    (setup_line env m).unit_position = m.unit_position := (setup_line_frame env m).2.2.1

@[simp] theorem setup_line_frame_position (env : Env) (m : Marker) :
    (setup_line env m).frame_position = m.frame_position := (setup_line_frame env m).2.2.2.1

@[simp] theorem setup_line_group (env : Env) (m : Marker) :
    (setup_line env m).group = m.group := (setup_line_frame env m).2.2.2.2.1

@[simp] theorem setup_line_selected (env : Env) (m : Marker) :
    (setup_line env m)._selected = m._selected := (setup_line_frame env m).2.2.2.2.2.1

@[simp] theorem setup_line_shown (env : Env) (m : Marker) :
    (setup_line env m)._shown = m._shown := (setup_line_frame env m).2.2.2.2.2.2.1

@[simp] theorem setup_line_line_shown (env : Env) (m : Marker) :
    (setup_line env m)._line_shown = m._line_shown := (setup_line_frame env m).2.2.2.2.2.2.2.1

@[simp] theorem setup_line_color (env : Env) (m : Marker) :
    (setup_line env m)._color = m._color := (setup_line_frame env m).2.2.2.2.2.2.2.2

theorem setup_scene_change_frame (env : Env) (m : Marker) :
    (setup_scene_change env m)._shift = m._shift ∧ (setup_scene_change env m)._type = m._type
    ∧ (setup_scene_change env m)._name = m._name
    ∧ (setup_scene_change env m)._name_item = m._name_item
    ∧ (setup_scene_change env m)._name_background = m._name_background
    ∧ (setup_scene_change env m)._left_label_limit = m._left_label_limit
    ∧ (setup_scene_change env m)._right_label_limit = m._right_label_limit
    ∧ (setup_scene_change env m)._have_scene_change = m._have_scene_change
    ∧ (setup_scene_change env m).name_height = m.name_height := by
  unfold setup_scene_change
  split <;> simp

theorem setup_name_display_frame (env : Env) (m : Marker) :
    (setup_name_display env m)._shift = m._shift ∧ (setup_name_display env m)._type = m._type
    ∧ (setup_name_display env m)._name = m._name
    ∧ (setup_name_display env m)._left_label_limit = m._left_label_limit
    ∧ (setup_name_display env m)._right_label_limit = m._right_label_limit
    ∧ (setup_name_display env m)._have_scene_change = m._have_scene_change
    ∧ (setup_name_display env m).name_height = m.name_height := by
  obtain ⟨h1, h2, h3, -, -, h6, h7, h8, h9⟩ := setup_scene_change_frame env m
  unfold setup_name_display setup_name_item
  simp only []
  split <;> simp [h1, h2, h3, h6, h7, h8, h9]

theorem setup_name_display_pos_frame (env : Env) (m : Marker) :
    (setup_name_display env m).unit_position = m.unit_position
    ∧ (setup_name_display env m).group = m.group
    ∧ (setup_name_display env m).frame_position = m.frame_position
    ∧ (setup_name_display env m)._selected = m._selected
    ∧ (setup_name_display env m)._shown = m._shown
    ∧ (setup_name_display env m)._line_shown = m._line_shown
    ∧ (setup_name_display env m)._track_canvas_line = m._track_canvas_line
    ∧ (setup_name_display env m)._color = m._color
    ∧ (setup_name_display env m).mark = m.mark := by
  have h : (setup_scene_change env m).unit_position = m.unit_position
      ∧ (setup_scene_change env m).group = m.group
      ∧ (setup_scene_change env m).frame_position = m.frame_position
      ∧ (setup_scene_change env m)._selected = m._selected
      ∧ (setup_scene_change env m)._shown = m._shown
      ∧ (setup_scene_change env m)._line_shown = m._line_shown
      ∧ (setup_scene_change env m)._track_canvas_line = m._track_canvas_line
      ∧ (setup_scene_change env m)._color = m._color
      ∧ (setup_scene_change env m).mark = m.mark := by
    unfold setup_scene_change
    split <;> simp
  obtain ⟨h1, h2, h3, h4, h5, h6, h7, h8, h9⟩ := h
  unfold setup_name_display setup_name_item
  simp only []
  split <;> simp [h1, h2, h3, h4, h5, h6, h7, h8, h9]

@[simp] theorem setup_name_display_shift (env : Env) (m : Marker) :
    (setup_name_display env m)._shift = m._shift := (setup_name_display_frame env m).1

@[simp] theorem setup_name_display_type (env : Env) (m : Marker) :
    (setup_name_display env m)._type = m._type := (setup_name_display_frame env m).2.1

theorem set_left_label_limit_shift_type (env : Env) (p : ℚ) (m : Marker) :
    (set_left_label_limit env p m)._shift = m._shift
    ∧ (set_left_label_limit env p m)._type = m._type := by
  unfold set_left_label_limit
  simp only []
  split_ifs <;> simp

theorem set_right_label_limit_shift_type (env : Env) (p : ℚ) (m : Marker) :
    (set_right_label_limit env p m)._shift = m._shift
    ∧ (set_right_label_limit env p m)._type = m._type := by
  unfold set_right_label_limit
  simp only []
  split_ifs <;> simp

/-- No mutator writes `_shift` or `_type`. -/
theorem apply_op_shift_type (env : Env) (op : Op) (m : Marker) :
    (op.apply env m)._shift = m._shift ∧ (op.apply env m)._type = m._type := by
  cases op
  case set_left_label_limit p => exact set_left_label_limit_shift_type env p m
  case set_right_label_limit p => exact set_right_label_limit_shift_type env p m
  all_goals
    simp [Op.apply, Marker.set_selected, Marker.set_show_line, Marker.canvas_height_set,
      Marker.set_name, Marker.set_position, Marker.reposition, Marker.«show», Marker.hide,
      Marker.set_color_rgba, Marker.set_has_scene_change]

theorem run_shift_type (env : Env) (ops : List Op) (m : Marker) :
    (run env ops m)._shift = m._shift ∧ (run env ops m)._type = m._type := by
  induction ops generalizing m with
  | nil => exact ⟨rfl, rfl⟩
  | cons op rest ih =>
    have h := apply_op_shift_type env op m
    have h2 := ih (op.apply env m)
    simp only [run, List.foldl_cons] at h2 ⊢
    exact ⟨h2.1.trans h.1, h2.2.trans h.2⟩

theorem add_polygon_shift_eq_spec (type : MarkerType) :
    add_polygon_shift type = spec_shift type := by
  cases type <;> simp [add_polygon_shift, spec_shift, _marker_height]

/-- In the default profile the constructor leaves `_shift` as `add_polygon` assigned it. -/
theorem ctor_shift_type (env : Env) (htrx : env.trx = false) (g : ℚ) (rgba : Nat)
    (name : String) (type : MarkerType) (frame : Int) :
    (ctor env g rgba name type frame)._shift = add_polygon_shift type
    ∧ (ctor env g rgba name type frame)._type = type := by
  unfold ctor
  simp only [set_name, setup_name_display_shift, setup_name_display_type, htrx]
  by_cases hT : type = MarkerType.Mark <;> simp [hT, set_color_rgba, add_polygon]

/-- The flags and the line of a marker fresh from the constructor: not selected, not shown, the
line forced exactly for the type Mark, no line node. -/
theorem ctor_flags (env : Env) (g : ℚ) (rgba : Nat) (name : String) (type : MarkerType)
    (frame : Int) :
    (ctor env g rgba name type frame)._type = type
    ∧ (ctor env g rgba name type frame)._selected = false
    ∧ (ctor env g rgba name type frame)._shown = false
    ∧ (ctor env g rgba name type frame)._line_shown = decide (type = MarkerType.Mark)
    ∧ (ctor env g rgba name type frame)._track_canvas_line = none := by
  have h1 := fun m => (setup_name_display_pos_frame env m)
  unfold ctor
  simp only [set_name, h1, setup_name_display_type]
  cases env.trx <;> by_cases hT : type = MarkerType.Mark <;>
    simp [hT, set_color_rgba, add_polygon]

/-! ### The conversion to `int` -/

theorem double_to_int_zero : double_to_int 0 = 0 := by
  simp [double_to_int]

theorem double_to_int_intCast (z : Int) : double_to_int (z : ℚ) = z := by
  unfold double_to_int
  split <;> simp

/-- Truncation does not pass a bound that is not negative. -/
theorem double_to_int_le (d l : ℚ) (hl : 0 ≤ l) (hd : d ≤ l) : (double_to_int d : ℚ) ≤ l := by
  unfold double_to_int
  split
  · exact le_trans (Int.floor_le d) hd
  · next h =>
    have h0 : Int.ceil d ≤ 0 := Int.ceil_le.mpr (by push_cast; exact le_of_lt (not_le.mp h))
    have h1 : ((Int.ceil d : Int) : ℚ) ≤ 0 := by exact_mod_cast h0
    exact le_trans h1 hl

/-- Truncation of a value that is not negative is its integer part. -/
theorem double_to_int_of_nonneg (d : ℚ) (hd : 0 ≤ d) : double_to_int d = Int.floor d := by
  simp [double_to_int, hd]

/-! ### The name item after `setup_name_display` -/

/-- The name item is shown exactly when the width of the name is not zero. -/
theorem setup_name_display_visible (env : Env) (m : Marker) :
    (setup_name_display env m)._name_item.visible = !decide (name_width env m = 0) := by
  unfold setup_name_display setup_name_item
  simp only []
  split
  · simp_all
  · simp_all only [not_false_eq_true, decide_False, Bool.not_false]
    split_ifs <;> rfl

/-- A name of width other than zero is clamped to that width. -/
theorem setup_name_display_clamped_width (env : Env) (m : Marker) (h : name_width env m ≠ 0) :
    (setup_name_display env m)._name_item.clamped_width = (name_width env m : ℚ) := by
  unfold setup_name_display setup_name_item
  simp [h]

/-- The width of the name is the raw width capped by the limit, truncated. -/
theorem name_width_eq_raw (env : Env) (m : Marker) :
    name_width env m = double_to_int (min (raw_width env m) m.limit) := by
  unfold name_width raw_width
  split <;> rfl

/-- The width of the name depends on the name, the type and the two limits only. -/
theorem name_width_congr (env : Env) (m m' : Marker) (hn : m'._name = m._name)
    (ht : m'._type = m._type) (hl : m'._left_label_limit = m._left_label_limit)
    (hr : m'._right_label_limit = m._right_label_limit) :
    name_width env m' = name_width env m := by
  simp only [name_width, limit, label_on_left, hn, ht, hl, hr]

theorem name_width_setup_name_display (env : Env) (m : Marker) :
    name_width env (setup_name_display env m) = name_width env m := by
  obtain ⟨-, h2, h3, h4, h5, -, -⟩ := setup_name_display_frame env m
  exact name_width_congr env m _ h3 h2 h4 h5

theorem demo_env_pixel_width_Verse (trx : Bool) : (demo_env trx).pixel_width "Verse" = 30 := by
  cases trx <;> decide

theorem demo_marker_fields (trx : Bool) :
    (demo_marker trx)._type = MarkerType.Mark ∧ (demo_marker trx)._name = "Verse" := by
  unfold demo_marker
  refine ⟨(ctor_flags _ _ _ _ _ _).1, ?_⟩
  unfold ctor
  simp only [set_name]
  rw [(setup_name_display_frame _ _).2.2.1]

/-- The limit of a marker with its label on the right is its right limit. -/
theorem limit_with_right (m : Marker) (l : ℚ) (hside : m.label_on_left = false) :
    ({ m with _right_label_limit := l } : Marker).limit = l := by
  have h : ({ m with _right_label_limit := l } : Marker).label_on_left = false := hside
  unfold limit
  rw [h]
  rfl

/-- On a marker with its label on the right `set_right_label_limit` is `setup_name_display`
after the store of the limit. -/
theorem set_right_label_limit_of_right (env : Env) (p : ℚ) (m : Marker)
    (hside : m.label_on_left = false) :
    set_right_label_limit env p m
      = setup_name_display env
          { m with _right_label_limit := if p - _marker_height < 0 then 0 else p - _marker_height } := by
  have h : ({ m with _right_label_limit :=
      if p - _marker_height < 0 then 0 else p - _marker_height } : Marker).label_on_left
      = false := hside
  unfold set_right_label_limit
  simp only [h]
  rfl

/-- The width of the name that `set_right_label_limit` leaves on a marker with its label on the
right, when the raw width exceeds `p` and `p` is not negative. -/
theorem name_width_set_right_label_limit (env : Env) (p : ℚ) (m : Marker)
    (hside : m.label_on_left = false) (hp : 0 ≤ p) (hraw : p < raw_width env m) :
    name_width env (set_right_label_limit env p m) = Int.floor (max (p - _marker_height) 0) := by
  rw [set_right_label_limit_of_right env p m hside, name_width_setup_name_display,
    name_width_eq_raw]
  have hl : ({ m with _right_label_limit :=
      if p - _marker_height < 0 then 0 else p - _marker_height } : Marker).limit
      = max (p - _marker_height) 0 := by
    rw [limit_with_right _ _ hside]
    split_ifs with h1
    · exact (max_eq_right (le_of_lt h1)).symm
    · exact (max_eq_left (not_lt.mp h1)).symm
  have hr : raw_width env ({ m with _right_label_limit :=
      if p - _marker_height < 0 then 0 else p - _marker_height } : Marker) = raw_width env m := rfl
  rw [hl, hr]
  have hmax : max (p - _marker_height) 0 ≤ p := by
    apply max_le _ hp
    unfold _marker_height
    linarith
  rw [min_eq_right (le_trans hmax (le_of_lt hraw)),
    double_to_int_of_nonneg _ (le_max_right _ _)]

/-! ### The label after `setup_name_display` -/

theorem limit_of_right (m : Marker) (h : m.label_on_left = false) :
    m.limit = m._right_label_limit := by
  simp [limit, h]

theorem label_on_left_congr (m m' : Marker) (h : m'._type = m._type) :
    m'.label_on_left = m.label_on_left := by
  simp [label_on_left, h]

/-- A name whose raw width is within the limit keeps its raw width. -/
theorem name_width_of_le_limit (env : Env) (m : Marker) (h : raw_width env m ≤ m.limit) :
    (name_width env m : ℚ) = raw_width env m := by
  rw [name_width_eq_raw, min_eq_left h]
  unfold raw_width name_padding
  split
  · have : (env.pixel_width m._name : ℚ) + 2 * 10 = ((env.pixel_width m._name + 20 : Int) : ℚ) := by
      push_cast; ring
    rw [this, double_to_int_intCast]
  · have : (env.pixel_width m._name : ℚ) + 2 = ((env.pixel_width m._name + 2 : Int) : ℚ) := by
      push_cast; ring
    rw [this, double_to_int_intCast]

/-- The badge half of the layout adds the width of the badge rectangle to `_label_offset` exactly
when the badge is wanted and its nodes are absent. -/
theorem setup_scene_change_label_offset (env : Env) (m : Marker) :
    (setup_scene_change env m)._label_offset
      = if m._have_scene_change = true ∧ m._scene_change = none then
          m._label_offset + ((env.pixel_size_width "MIDI" : ℚ) + 7)
        else m._label_offset := by
  unfold setup_scene_change
  split
  · next h =>
    cases hsc : m._scene_change <;> simp [h]
    norm_num
  · next h => simp [h]

theorem setup_scene_change_isSome (env : Env) (m : Marker) :
    (setup_scene_change env m)._scene_change.isSome = m._have_scene_change := by
  unfold setup_scene_change
  split
  · next h => simp [h]
  · next h => simp at h; simp [h]

/-- The second half of `setup_name_display` leaves `_label_offset`, the badge and the node count
as the badge half made them. -/
theorem setup_name_display_badge_fields (env : Env) (m : Marker) :
    (setup_name_display env m)._label_offset = (setup_scene_change env m)._label_offset
    ∧ (setup_name_display env m)._scene_change = (setup_scene_change env m)._scene_change
    ∧ (setup_name_display env m).nodes_created = (setup_scene_change env m).nodes_created := by
  unfold setup_name_display setup_name_item
  simp only []
  split <;> simp

/-- In the default profile the name item of a marker with its label on the right stays where it
is. -/
theorem setup_name_display_position_of_right (env : Env) (m : Marker) (htrx : env.trx = false)
    (hside : m.label_on_left = false) :
    (setup_name_display env m)._name_item.position = m._name_item.position := by
  have h1 : (setup_scene_change env m).label_on_left = false := by
    rw [label_on_left_congr m _ (setup_scene_change_frame env m).2.1]; exact hside
  have h2 := (setup_scene_change_frame env m).2.2.2.1
  unfold setup_name_display setup_name_item
  simp only []
  split <;> simp [htrx, h1, h2]

/-- In the default profile the background of a shown name on the right starts at the x position of
the name item less `_label_offset`, plus 2. -/
theorem setup_name_display_background_x0_of_right (env : Env) (m : Marker)
    (htrx : env.trx = false) (hside : m.label_on_left = false) (hw : name_width env m ≠ 0) :
    (setup_name_display env m)._name_background.x0
      = m._name_item.position.x - (setup_name_display env m)._label_offset + 2 := by
  have h1 : (setup_scene_change env m).label_on_left = false := by
    rw [label_on_left_congr m _ (setup_scene_change_frame env m).2.1]; exact hside
  have h2 := (setup_scene_change_frame env m).2.2.2.1
  unfold setup_name_display setup_name_item
  simp [htrx, h1, h2, hw]

/-! ### The constructor and the badge setter -/

/-- The label fields of a marker fresh from the constructor, default profile. -/
theorem ctor_label_fields (env : Env) (htrx : env.trx = false) (g : ℚ) (rgba : Nat)
    (name : String) (type : MarkerType) (frame : Int) :
    (ctor env g rgba name type frame)._name = name
    ∧ (ctor env g rgba name type frame)._left_label_limit = DBL_MAX
    ∧ (ctor env g rgba name type frame)._right_label_limit = DBL_MAX
    ∧ (ctor env g rgba name type frame)._have_scene_change = false
    ∧ (ctor env g rgba name type frame)._scene_change = none
    ∧ (ctor env g rgba name type frame)._label_offset = add_polygon_label_offset type := by
  have hf := fun m => setup_name_display_frame env m
  have hb := fun m => setup_name_display_badge_fields env m
  unfold ctor
  simp only [set_name, hf, hb, htrx]
  by_cases hT : type = MarkerType.Mark <;>
    simp [hT, set_color_rgba, add_polygon, setup_scene_change]

/-- The constructor ends in `setup_name_display`, run on a marker with these label fields. -/
theorem ctor_eq_setup_name_display (env : Env) (g : ℚ) (rgba : Nat) (name : String)
    (type : MarkerType) (frame : Int) :
    ∃ m4 : Marker, ctor env g rgba name type frame = setup_name_display env m4
      ∧ m4._name = name ∧ m4._type = type
      ∧ m4._left_label_limit = DBL_MAX ∧ m4._right_label_limit = DBL_MAX
      ∧ m4._have_scene_change = false ∧ m4._scene_change = none
      ∧ m4._label_offset = (if env.trx then name_padding else add_polygon_label_offset type)
      ∧ m4._name_item.position.x = m4._label_offset := by
  unfold ctor
  simp only [set_name]
  refine ⟨_, rfl, ?_⟩
  cases env.trx <;> by_cases hT : type = MarkerType.Mark <;>
    simp [hT, set_color_rgba, add_polygon]

/-- The label of a marker fresh from the constructor, default profile, label on the right, name
of a width other than zero: the name item sits at the label offset of the type and the background
starts at 2. -/
theorem ctor_right_geometry (env : Env) (htrx : env.trx = false) (g : ℚ) (rgba : Nat)
    (name : String) (type : MarkerType) (frame : Int)
    (hside : (ctor env g rgba name type frame).label_on_left = false)
    (hw : name_width env (ctor env g rgba name type frame) ≠ 0) :
    (ctor env g rgba name type frame)._name_item.position.x = add_polygon_label_offset type
    ∧ (ctor env g rgba name type frame)._name_background.x0 = 2 := by
  obtain ⟨m4, h, -, -, -, -, h5, h6, h7, h8⟩ := ctor_eq_setup_name_display env g rgba name type frame
  rw [h] at hside hw ⊢
  rw [name_width_setup_name_display] at hw
  rw [label_on_left_congr m4 _ (setup_name_display_type env m4)] at hside
  rw [setup_name_display_position_of_right env m4 htrx hside,
    setup_name_display_background_x0_of_right env m4 htrx hside hw,
    (setup_name_display_badge_fields env m4).1, setup_scene_change_label_offset, h8, h7, h5]
  simp [htrx]

/-! ### `set_has_scene_change` -/

theorem set_has_scene_change_frame (env : Env) (yn : Bool) (m : Marker) :
    (set_has_scene_change env yn m)._name = m._name
    ∧ (set_has_scene_change env yn m)._type = m._type
    ∧ (set_has_scene_change env yn m)._left_label_limit = m._left_label_limit
    ∧ (set_has_scene_change env yn m)._right_label_limit = m._right_label_limit
    ∧ (set_has_scene_change env yn m)._have_scene_change = yn := by
  obtain ⟨-, h2, h3, h4, h5, h6, -⟩ :=
    setup_name_display_frame env { m with _have_scene_change := yn }
  exact ⟨h3, h2, h4, h5, h6⟩

theorem name_width_set_has_scene_change (env : Env) (yn : Bool) (m : Marker) :
    name_width env (set_has_scene_change env yn m) = name_width env m := by
  obtain ⟨h1, h2, h3, h4, -⟩ := set_has_scene_change_frame env yn m
  exact name_width_congr env m _ h1 h2 h3 h4

theorem label_on_left_set_has_scene_change (env : Env) (yn : Bool) (m : Marker) :
    (set_has_scene_change env yn m).label_on_left = m.label_on_left :=
  label_on_left_congr m _ (set_has_scene_change_frame env yn m).2.1

theorem set_has_scene_change_label_offset (env : Env) (yn : Bool) (m : Marker) :
    (set_has_scene_change env yn m)._label_offset
      = if yn = true ∧ m._scene_change = none then
          m._label_offset + ((env.pixel_size_width "MIDI" : ℚ) + 7)
        else m._label_offset := by
  unfold set_has_scene_change
  rw [(setup_name_display_badge_fields env _).1, setup_scene_change_label_offset]

theorem set_has_scene_change_isSome (env : Env) (yn : Bool) (m : Marker) :
    (set_has_scene_change env yn m)._scene_change.isSome = yn := by
  unfold set_has_scene_change
  rw [(setup_name_display_badge_fields env _).2.1, setup_scene_change_isSome]

theorem set_has_scene_change_position_of_right (env : Env) (yn : Bool) (m : Marker)
    (htrx : env.trx = false) (hside : m.label_on_left = false) :
    (set_has_scene_change env yn m)._name_item.position = m._name_item.position :=
  setup_name_display_position_of_right env { m with _have_scene_change := yn } htrx hside

theorem set_has_scene_change_background_x0_of_right (env : Env) (yn : Bool) (m : Marker)
    (htrx : env.trx = false) (hside : m.label_on_left = false) (hw : name_width env m ≠ 0) :
    (set_has_scene_change env yn m)._name_background.x0
      = m._name_item.position.x - (set_has_scene_change env yn m)._label_offset + 2 :=
  setup_name_display_background_x0_of_right env { m with _have_scene_change := yn } htrx hside hw

/-- Switching the badge on and off again on a marker without badge nodes leaves `_label_offset`
larger by the width of the badge rectangle. -/
theorem label_offset_badge_on_off (env : Env) (m : Marker) (h : m._scene_change = none) :
    (set_has_scene_change env false (set_has_scene_change env true m))._label_offset
      = m._label_offset + ((env.pixel_size_width "MIDI" : ℚ) + 7)
    ∧ (set_has_scene_change env false (set_has_scene_change env true m))._scene_change = none := by
  constructor
  · rw [set_has_scene_change_label_offset, set_has_scene_change_label_offset]
    simp [h]
  · have := set_has_scene_change_isSome env false (set_has_scene_change env true m)
    simpa using this

/-- Switching the badge on and off again, default profile, label on the right, name of a width
other than zero: the background then starts left of where a layout without the toggle puts it, by
the width of the badge rectangle. -/
theorem background_x0_badge_on_off (env : Env) (htrx : env.trx = false) (m : Marker)
    (hside : m.label_on_left = false) (hw : name_width env m ≠ 0) (h : m._scene_change = none) :
    (set_has_scene_change env false (set_has_scene_change env true m))._name_background.x0
      = m._name_item.position.x - (m._label_offset + ((env.pixel_size_width "MIDI" : ℚ) + 7))
        + 2 := by
  rw [set_has_scene_change_background_x0_of_right env false _ htrx
      (by rw [label_on_left_set_has_scene_change]; exact hside)
      (by rw [name_width_set_has_scene_change]; exact hw),
    (label_offset_badge_on_off env m h).1,
    set_has_scene_change_position_of_right env true m htrx hside]

theorem demo_marker_label :
    (demo_marker false)._scene_change = none
    ∧ (demo_marker false)._label_offset = 8
    ∧ (demo_marker false).label_on_left = false
    ∧ name_width (demo_env false) (demo_marker false) = 32
    ∧ (demo_marker false)._name_item.position.x = 8
    ∧ (demo_marker false)._name_background.x0 = 2 := by
  have hc := ctor_label_fields (demo_env false) rfl 0 0xff0000ff "Verse" MarkerType.Mark 1000
  have hside : (demo_marker false).label_on_left = false := by
    simp [label_on_left, (demo_marker_fields false).1]
  have hraw : raw_width (demo_env false) (demo_marker false) = 32 := by
    rw [raw_width, (demo_marker_fields false).2, demo_env_pixel_width_Verse]
    norm_num [demo_env]
  have hw : name_width (demo_env false) (demo_marker false) = 32 := by
    have h := name_width_of_le_limit (demo_env false) (demo_marker false) (by
      rw [hraw, limit_of_right _ hside]
      unfold demo_marker
      rw [hc.2.2.1]
      norm_num [DBL_MAX])
    rw [hraw] at h
    exact_mod_cast h
  have hg := ctor_right_geometry (demo_env false) rfl 0 0xff0000ff "Verse" MarkerType.Mark 1000
    hside (by unfold demo_marker at hw; rw [hw]; norm_num)
  refine ⟨hc.2.2.2.2.1, ?_, hside, hw, ?_, hg.2⟩
  · unfold demo_marker; rw [hc.2.2.2.2.2]; norm_num [add_polygon_label_offset]
  · unfold demo_marker; rw [hg.1]; norm_num [add_polygon_label_offset]

/-! ### Idempotence of the layout -/

/-- Laying out the name twice with the same widths is laying it out once. -/
theorem setup_name_item_idempotent (env : Env) (nw scw : Int) (m : Marker) :
    setup_name_item env nw scw (setup_name_item env nw scw m) = setup_name_item env nw scw m := by
  unfold setup_name_item
  by_cases h0 : nw = 0
  · simp [h0]
  · cases htrx : env.trx <;> cases hside : m.label_on_left <;>
      simp [h0, htrx, hside, label_on_left] <;> simp_all [label_on_left]

theorem scene_change_width_congr (env : Env) (m m' : Marker)
    (h : m'._have_scene_change = m._have_scene_change) :
    scene_change_width env m' = scene_change_width env m := by
  simp [scene_change_width, h]

/-- The badge half of the layout changes nothing on a marker it has already set up. -/
theorem setup_scene_change_idempotent (env : Env) (m : Marker) :
    setup_scene_change env (setup_scene_change env m) = setup_scene_change env m := by
  unfold setup_scene_change
  cases h : m._have_scene_change <;> cases hsc : m._scene_change <;> simp [h, hsc]

/-- The badge that the badge half leaves depends on the flag, the badge nodes and the height of
the font only. -/
theorem setup_scene_change_scene_change_congr (env : Env) (m m' : Marker)
    (h1 : m'._have_scene_change = m._have_scene_change)
    (h2 : m'._scene_change = m._scene_change) (h3 : m'.name_height = m.name_height) :
    (setup_scene_change env m')._scene_change = (setup_scene_change env m)._scene_change := by
  unfold setup_scene_change
  simp only [h1, h2, h3]
  split <;> rfl

/-- The badge half of the layout changes nothing on a marker whose badge it leaves as it is. -/
theorem setup_scene_change_eq_self (env : Env) (m : Marker)
    (h : (setup_scene_change env m)._scene_change = m._scene_change) :
    setup_scene_change env m = m := by
  unfold setup_scene_change at h ⊢
  cases hh : m._have_scene_change <;> cases hsc : m._scene_change <;>
    simp only [hh, hsc, if_true, if_false] at h ⊢
  · cases m; simp_all
  · simp at h
  · simp at h
  · cases m; simp_all

/-- The layout of the name is idempotent. -/
theorem setup_name_display_idem (env : Env) (m : Marker) :
    setup_name_display env (setup_name_display env m) = setup_name_display env m := by
  have h1 := name_width_setup_name_display env m
  have hf := setup_name_display_frame env m
  have hb := setup_name_display_badge_fields env m
  have hs := setup_scene_change_frame env m
  have h2 := scene_change_width_congr env m (setup_name_display env m) hf.2.2.2.2.2.1
  have h3 : setup_scene_change env (setup_name_display env m) = setup_name_display env m := by
    apply setup_scene_change_eq_self
    rw [hb.2.1, setup_scene_change_scene_change_congr env (setup_scene_change env m) _
      (by rw [hf.2.2.2.2.2.1, hs.2.2.2.2.2.2.2.1]) hb.2.1
      (by rw [hf.2.2.2.2.2.2, hs.2.2.2.2.2.2.2.2]), setup_scene_change_idempotent]
  rw [setup_name_display, h1, h2, h3]
  unfold setup_name_display
  rw [setup_name_item_idempotent]

theorem setup_scene_change_nodes_created (env : Env) (m : Marker) :
    (setup_scene_change env m).nodes_created
      = if m._have_scene_change = true ∧ m._scene_change = none then m.nodes_created + 2
        else m.nodes_created := by
  unfold setup_scene_change
  split
  · next h => cases hsc : m._scene_change <;> simp [h]
  · next h => simp [h]

theorem set_has_scene_change_nodes_created (env : Env) (yn : Bool) (m : Marker) :
    (set_has_scene_change env yn m).nodes_created
      = if yn = true ∧ m._scene_change = none then m.nodes_created + 2 else m.nodes_created := by
  unfold set_has_scene_change
  rw [(setup_name_display_badge_fields env _).2.2, setup_scene_change_nodes_created]

/-- Storing the value that the flag already has changes nothing. -/
theorem with_have_scene_change_eq_self (m : Marker) (yn : Bool) (h : m._have_scene_change = yn) :
    ({ m with _have_scene_change := yn } : Marker) = m := by
  cases m
  simp_all

end Marker

/-! ## Positioning -/

namespace Marker

/-- C1: in the default profile, for a marker of any type built by the constructor and then taken
through any sequence of mutator calls, `set_position t` stores the time `t`, and the pixel
position, which is also the x position of the group, is `sample_to_pixel t` minus the shift of the
type (3, 0 or 17 as the specification lists them). -/
theorem set_position_pixel_position (env : Env) (htrx : env.trx = false) (shift_uninit : ℚ)
    (rgba : Nat) (name : String) (type : MarkerType) (frame : Int) (ops : List Op) (t : Int) :
    (set_position env t (run env ops (ctor env shift_uninit rgba name type frame))).frame_position
        = t
    ∧ (set_position env t (run env ops (ctor env shift_uninit rgba name type frame))).unit_position
        = env.sample_to_pixel t - spec_shift type
    ∧ (set_position env t
          (run env ops (ctor env shift_uninit rgba name type frame))).group.position.x
        = env.sample_to_pixel t - spec_shift type := by
  have hrun := (run_shift_type env ops (ctor env shift_uninit rgba name type frame)).1
  have hctor := (ctor_shift_type env htrx shift_uninit rgba name type frame).1
  have hs : (run env ops (ctor env shift_uninit rgba name type frame))._shift = spec_shift type := by
    rw [hrun, hctor, add_polygon_shift_eq_spec]
  simp [set_position, hs]

/-- C1, at a concrete marker: a Mark marker named "Verse", selected and shown, then moved to
time 48000. -/
theorem set_position_pixel_position_witness :
    (demo_env false).trx = false
    ∧ (set_position (demo_env false) 48000
        (run (demo_env false) [Op.set_selected true, Op.«show»]
          (ctor (demo_env false) 0 0xff0000ff "Verse" MarkerType.Mark 1000))).frame_position
        = 48000
    ∧ (set_position (demo_env false) 48000
        (run (demo_env false) [Op.set_selected true, Op.«show»]
          (ctor (demo_env false) 0 0xff0000ff "Verse" MarkerType.Mark 1000))).unit_position
        = (demo_env false).sample_to_pixel 48000 - spec_shift MarkerType.Mark
    ∧ (set_position (demo_env false) 48000
        (run (demo_env false) [Op.set_selected true, Op.«show»]
          (ctor (demo_env false) 0 0xff0000ff "Verse" MarkerType.Mark 1000))).group.position.x
        = (demo_env false).sample_to_pixel 48000 - spec_shift MarkerType.Mark :=
  ⟨rfl, set_position_pixel_position (demo_env false) rfl 0 0xff0000ff "Verse" MarkerType.Mark 1000
    [Op.set_selected true, Op.«show»] 48000⟩

/-- C2: the constructor computes the pixel position from `_shift` before `add_polygon` has assigned
it: for every input the pixel position of the new marker, and the x position of its group, is
`sample_to_pixel frame` minus the value the unassigned member held, whatever the type; a Mark
marker built at time 1000 with `sample_to_pixel 1000 = 250` over a zero member sits at 250, not
at 247, although its `_shift` is 3 once the constructor is done. -/
theorem ctor_pixel_position_reads_unassigned_shift :
    (∀ (env : Env) (shift_uninit : ℚ) (rgba : Nat) (name : String) (type : MarkerType)
        (frame : Int),
      (ctor env shift_uninit rgba name type frame).unit_position
          = env.sample_to_pixel frame - shift_uninit
      ∧ (ctor env shift_uninit rgba name type frame).group.position.x
          = env.sample_to_pixel frame - shift_uninit)
    ∧ (ctor (demo_env false) 0 0xff0000ff "Verse" MarkerType.Mark 1000).unit_position = 250
    ∧ (ctor (demo_env false) 0 0xff0000ff "Verse" MarkerType.Mark 1000).unit_position
        ≠ (demo_env false).sample_to_pixel 1000 - spec_shift MarkerType.Mark
    ∧ (ctor (demo_env false) 0 0xff0000ff "Verse" MarkerType.Mark 1000)._shift = 3 := by
  have key : ∀ (env : Env) (shift_uninit : ℚ) (rgba : Nat) (name : String) (type : MarkerType)
      (frame : Int),
      (ctor env shift_uninit rgba name type frame).unit_position
          = env.sample_to_pixel frame - shift_uninit
      ∧ (ctor env shift_uninit rgba name type frame).group.position.x
          = env.sample_to_pixel frame - shift_uninit := by
    intro env g rgba name type frame
    have h1 := fun m => (setup_name_display_pos_frame env m)
    unfold ctor
    simp only [set_name, h1]
    cases env.trx <;> by_cases hT : type = MarkerType.Mark <;>
      simp [hT, set_color_rgba, add_polygon]
  refine ⟨key, ?_, ?_, ?_⟩
  · rw [(key _ _ _ _ _ _).1]; simp [demo_env]
  · rw [(key _ _ _ _ _ _).1]; simp [demo_env, spec_shift]; norm_num
  · rw [(ctor_shift_type _ rfl _ _ _ _ _).1]; rfl

end Marker

/-! ## Line visibility -/

namespace Marker

/-- After `setup_line` the line is on screen exactly when the condition of its `if` held. -/
theorem line_shown_setup_line (env : Env) (m : Marker) :
    (setup_line env m).line_shown
      = ((env.trx && m._type == MarkerType.Mark)
          || (m._shown && ((!env.trx && m._selected) || m._line_shown))) := by
  unfold setup_line
  split
  · next h => simp [line_shown, h]
  · next h =>
    have h' : ((env.trx && m._type == MarkerType.Mark)
          || (m._shown && ((!env.trx && m._selected) || m._line_shown))) = false := by
      simpa using h
    rw [h']
    split <;> simp_all [line_shown]

/-- C3: in the default profile, after each of `set_selected`, `set_show_line`, `show`, `hide` and
`set_position` the extension line is on screen if and only if the marker is shown and is selected
or has its line forced. -/
theorem line_shown_iff_default_profile (env : Env) (htrx : env.trx = false) (m : Marker)
    (s : Bool) (t : Int) :
    ∀ m' ∈ [set_selected env s m, set_show_line env s m, Marker.«show» env m, hide env m,
        set_position env t m],
      (m'.line_shown = true ↔
        (m'._shown = true ∧ (m'._selected = true ∨ m'._line_shown = true))) := by
  intro m' hm'
  simp only [List.mem_cons, List.mem_singleton, List.not_mem_nil, or_false] at hm'
  rcases hm' with h | h | h | h | h <;> subst h
  · simp [set_selected, line_shown_setup_line, htrx]
  · simp [set_show_line, line_shown_setup_line, htrx]
  · simp [Marker.«show», line_shown_setup_line, htrx]
  · simp [hide, line_shown_setup_line, htrx]
  · have h : (set_position env t m).line_shown
        = (setup_line env
            { m with
              unit_position := env.sample_to_pixel t - m._shift
              group :=
                { m.group with
                  position := ⟨env.sample_to_pixel t - m._shift, m.group.position.y⟩ } }).line_shown :=
      rfl
    rw [h, line_shown_setup_line]
    simp [set_position, htrx]

/-- C3, at a concrete marker: a Tempo marker that is shown and not selected has no line on screen,
and selecting it puts the line on screen. -/
theorem line_shown_iff_default_profile_witness :
    (demo_env false).trx = false
    ∧ (Marker.«show» (demo_env false)
        (ctor (demo_env false) 0 0xff0000ff "120" MarkerType.Tempo 0)).line_shown = false
    ∧ ((set_selected (demo_env false) true
          (Marker.«show» (demo_env false)
            (ctor (demo_env false) 0 0xff0000ff "120" MarkerType.Tempo 0))).line_shown = true
        ↔ ((set_selected (demo_env false) true
              (Marker.«show» (demo_env false)
                (ctor (demo_env false) 0 0xff0000ff "120" MarkerType.Tempo 0)))._shown = true
            ∧ ((set_selected (demo_env false) true
                  (Marker.«show» (demo_env false)
                    (ctor (demo_env false) 0 0xff0000ff "120" MarkerType.Tempo 0)))._selected
                  = true
              ∨ (set_selected (demo_env false) true
                  (Marker.«show» (demo_env false)
                    (ctor (demo_env false) 0 0xff0000ff "120" MarkerType.Tempo 0)))._line_shown
                  = true)))
    ∧ (set_selected (demo_env false) true
          (Marker.«show» (demo_env false)
            (ctor (demo_env false) 0 0xff0000ff "120" MarkerType.Tempo 0))).line_shown = true :=
  ⟨rfl, by simp [Marker.«show», line_shown_setup_line, ctor_flags, demo_env],
    line_shown_iff_default_profile (demo_env false) rfl
      (Marker.«show» (demo_env false)
        (ctor (demo_env false) 0 0xff0000ff "120" MarkerType.Tempo 0)) true 0 _
      (List.mem_cons_self _ _),
    by simp [Marker.«show», set_selected, line_shown_setup_line, ctor_flags, demo_env]⟩

/-- C4, as stated, fails: in the alternate profile a Tempo marker that is shown, selected and has
no forced line has no line on screen after `setup_line`, although it is visible and selected. -/
theorem line_shown_alternate_profile_counterexample :
    (demo_env true).trx = true
    ∧ ¬ ((setup_line (demo_env true)
            (set_selected (demo_env true) true
              (Marker.«show» (demo_env true)
                (ctor (demo_env true) 0 0xff0000ff "120" MarkerType.Tempo 0)))).line_shown = true
        ↔ ((set_selected (demo_env true) true
              (Marker.«show» (demo_env true)
                (ctor (demo_env true) 0 0xff0000ff "120" MarkerType.Tempo 0)))._type
              = MarkerType.Mark
            ∨ ((set_selected (demo_env true) true
                  (Marker.«show» (demo_env true)
                    (ctor (demo_env true) 0 0xff0000ff "120" MarkerType.Tempo 0)))._shown = true
                ∧ ((set_selected (demo_env true) true
                      (Marker.«show» (demo_env true)
                        (ctor (demo_env true) 0 0xff0000ff "120" MarkerType.Tempo 0)))._selected
                      = true
                  ∨ (set_selected (demo_env true) true
                      (Marker.«show» (demo_env true)
                        (ctor (demo_env true) 0 0xff0000ff "120" MarkerType.Tempo 0)))._line_shown
                      = true)))) := by
  simp [Marker.«show», set_selected, line_shown_setup_line, ctor_flags, demo_env]

/-- C4, amended: in the alternate profile, after `setup_line` the extension line is on screen if
and only if the marker is of type Mark, or is shown and has its line forced; selection has no part
in it. -/
theorem line_shown_iff_alternate_profile (env : Env) (htrx : env.trx = true) (m : Marker) :
    (setup_line env m).line_shown = true ↔
      (m._type = MarkerType.Mark ∨ (m._shown = true ∧ m._line_shown = true)) := by
  simp [line_shown_setup_line, htrx]

/-- C4, amended, at a concrete marker: the shown and selected Tempo marker of the counterexample
gets its line on screen only once the line is forced. -/
theorem line_shown_iff_alternate_profile_witness :
    (demo_env true).trx = true
    ∧ ((setup_line (demo_env true)
          (set_show_line (demo_env true) true
            (set_selected (demo_env true) true
              (Marker.«show» (demo_env true)
                (ctor (demo_env true) 0 0xff0000ff "120" MarkerType.Tempo 0))))).line_shown = true
        ↔ ((set_show_line (demo_env true) true
            (set_selected (demo_env true) true
              (Marker.«show» (demo_env true)
                (ctor (demo_env true) 0 0xff0000ff "120" MarkerType.Tempo 0))))._type
              = MarkerType.Mark
          ∨ ((set_show_line (demo_env true) true
                (set_selected (demo_env true) true
                  (Marker.«show» (demo_env true)
                    (ctor (demo_env true) 0 0xff0000ff "120" MarkerType.Tempo 0))))._shown = true
              ∧ (set_show_line (demo_env true) true
                  (set_selected (demo_env true) true
                    (Marker.«show» (demo_env true)
                      (ctor (demo_env true) 0 0xff0000ff "120" MarkerType.Tempo 0))))._line_shown
                  = true))) :=
  ⟨rfl, line_shown_iff_alternate_profile (demo_env true) rfl _⟩

end Marker

/-! ## Label layout -/

namespace Marker

/-- C5: for every marker, whatever its name, when the limit on the side of the label is not
negative (and the measured width of the name is not negative), the width that
`setup_name_display` computes for the name is at most the limit, a name that is shown is clamped to
that width, and with a limit of zero the name item is hidden. -/
theorem name_width_le_limit (env : Env) (m : Marker) (hlimit : 0 ≤ m.limit)
    (hwidth : 0 ≤ env.pixel_width m._name) :
    (name_width env m : ℚ) ≤ m.limit
    ∧ ((setup_name_display env m)._name_item.visible = true →
        (setup_name_display env m)._name_item.clamped_width = (name_width env m : ℚ)
        ∧ (setup_name_display env m)._name_item.clamped_width ≤ m.limit)
    ∧ (m.limit = 0 → (setup_name_display env m)._name_item.visible = false) := by
  have h1 : (name_width env m : ℚ) ≤ m.limit := by
    unfold name_width
    split <;> exact double_to_int_le _ _ hlimit (min_le_right _ _)
  have hw : (0 : ℚ) ≤ (env.pixel_width m._name : ℚ) := by exact_mod_cast hwidth
  refine ⟨h1, ?_, ?_⟩
  · intro hv
    rw [setup_name_display_visible] at hv
    have hne : name_width env m ≠ 0 := by simpa using hv
    rw [setup_name_display_clamped_width env m hne]
    exact ⟨rfl, h1⟩
  · intro h0
    rw [setup_name_display_visible]
    have hz : name_width env m = 0 := by
      unfold name_width
      rw [h0]
      split
      · rw [min_eq_right (by unfold name_padding; linarith), double_to_int_zero]
      · rw [min_eq_right (by linarith), double_to_int_zero]
    simp [hz]

/-- C5, at a concrete marker: the Mark marker "Verse" (30 pixels of text) with 13 pixels to its
right. -/
theorem name_width_le_limit_witness :
    0 ≤ ({ demo_marker false with _right_label_limit := 13 } : Marker).limit
    ∧ 0 ≤ (demo_env false).pixel_width
        ({ demo_marker false with _right_label_limit := 13 } : Marker)._name
    ∧ ((name_width (demo_env false)
          ({ demo_marker false with _right_label_limit := 13 } : Marker) : ℚ)
        ≤ ({ demo_marker false with _right_label_limit := 13 } : Marker).limit
      ∧ ((setup_name_display (demo_env false)
            ({ demo_marker false with _right_label_limit := 13 } : Marker))._name_item.visible
            = true →
          (setup_name_display (demo_env false)
            ({ demo_marker false with _right_label_limit := 13 } : Marker))._name_item.clamped_width
            = (name_width (demo_env false)
                ({ demo_marker false with _right_label_limit := 13 } : Marker) : ℚ)
          ∧ (setup_name_display (demo_env false)
              ({ demo_marker false with
                  _right_label_limit := 13 } : Marker))._name_item.clamped_width
            ≤ ({ demo_marker false with _right_label_limit := 13 } : Marker).limit)
      ∧ (({ demo_marker false with _right_label_limit := 13 } : Marker).limit = 0 →
          (setup_name_display (demo_env false)
            ({ demo_marker false with _right_label_limit := 13 } : Marker))._name_item.visible
            = false)) := by
  have h1 : 0 ≤ ({ demo_marker false with _right_label_limit := 13 } : Marker).limit := by
    simp [limit, label_on_left, (demo_marker_fields false).1]
  have h2 : 0 ≤ (demo_env false).pixel_width
      ({ demo_marker false with _right_label_limit := 13 } : Marker)._name := by
    simp [(demo_marker_fields false).2, demo_env]
  exact ⟨h1, h2, name_width_le_limit (demo_env false) _ h1 h2⟩

/-- C6, as stated, fails: the Mark marker "Verse" has its label on the right and a raw label
width of 32, more than 5, yet after `set_right_label_limit 5` the width of its name is 0, not 5,
and the name item is hidden. -/
theorem set_right_label_limit_counterexample :
    (demo_marker false).label_on_left = false
    ∧ (5 : ℚ) < raw_width (demo_env false) (demo_marker false)
    ∧ name_width (demo_env false) (set_right_label_limit (demo_env false) 5 (demo_marker false))
        = 0
    ∧ (name_width (demo_env false)
        (set_right_label_limit (demo_env false) 5 (demo_marker false)) : ℚ) ≠ 5
    ∧ (set_right_label_limit (demo_env false) 5 (demo_marker false))._name_item.visible
        = false := by
  have hside : (demo_marker false).label_on_left = false := by
    simp [label_on_left, (demo_marker_fields false).1]
  have hraw : (5 : ℚ) < raw_width (demo_env false) (demo_marker false) := by
    rw [raw_width, (demo_marker_fields false).2, demo_env_pixel_width_Verse]
    norm_num [demo_env]
  have hw : name_width (demo_env false)
      (set_right_label_limit (demo_env false) 5 (demo_marker false)) = 0 := by
    rw [name_width_set_right_label_limit _ _ _ hside (by norm_num) hraw]
    norm_num [_marker_height]
  refine ⟨hside, hraw, hw, ?_, ?_⟩
  · rw [hw]; norm_num
  · rw [set_right_label_limit_of_right _ _ _ hside, setup_name_display_visible,
      ← name_width_setup_name_display, ← set_right_label_limit_of_right _ _ _ hside, hw]
    rfl

/-- C6, amended: for every marker with its label on the right whose raw label width exceeds `p`,
with `p` not negative, after `set_right_label_limit p` the width of the name is the integer part
of `max (p - 17) 0` (the setter takes the marker height off `p` and stops at zero); the name
item is hidden when that is zero and is otherwise shown, clamped to it. -/
theorem set_right_label_limit_name_width (env : Env) (p : ℚ) (m : Marker)
    (hside : m.label_on_left = false) (hp : 0 ≤ p) (hraw : p < raw_width env m) :
    name_width env (set_right_label_limit env p m) = Int.floor (max (p - 17) 0)
    ∧ (Int.floor (max (p - 17) 0) = 0 →
        (set_right_label_limit env p m)._name_item.visible = false)
    ∧ (Int.floor (max (p - 17) 0) ≠ 0 →
        (set_right_label_limit env p m)._name_item.visible = true
        ∧ (set_right_label_limit env p m)._name_item.clamped_width
            = (Int.floor (max (p - 17) 0) : ℚ)) := by
  have hw := name_width_set_right_label_limit env p m hside hp hraw
  have hw' : name_width env
      { m with _right_label_limit := if p - _marker_height < 0 then 0 else p - _marker_height }
      = Int.floor (max (p - 17) 0) := by
    rw [← name_width_setup_name_display, ← set_right_label_limit_of_right env p m hside]
    exact hw
  refine ⟨hw, ?_, ?_⟩
  · intro h0
    rw [set_right_label_limit_of_right env p m hside, setup_name_display_visible, hw', h0]
    rfl
  · intro hne
    rw [set_right_label_limit_of_right env p m hside, setup_name_display_visible,
      setup_name_display_clamped_width _ _ (by rw [hw']; exact hne), hw']
    simp [hne]

/-- C6, amended, at a concrete marker: the Mark marker "Verse" with `p = 30` ends with a name of
width 13. -/
theorem set_right_label_limit_name_width_witness :
    (demo_marker false).label_on_left = false
    ∧ (0 : ℚ) ≤ 30
    ∧ (30 : ℚ) < raw_width (demo_env false) (demo_marker false)
    ∧ name_width (demo_env false) (set_right_label_limit (demo_env false) 30 (demo_marker false))
        = 13 := by
  have hside : (demo_marker false).label_on_left = false := by
    simp [label_on_left, (demo_marker_fields false).1]
  have hraw : (30 : ℚ) < raw_width (demo_env false) (demo_marker false) := by
    rw [raw_width, (demo_marker_fields false).2, demo_env_pixel_width_Verse]
    norm_num [demo_env]
  have h := (set_right_label_limit_name_width (demo_env false) 30 (demo_marker false) hside
    (by norm_num) hraw).1
  refine ⟨hside, by norm_num, hraw, ?_⟩
  rw [h]
  norm_num

/-- C7: the code does not undo the badge offset. The Mark marker "Verse" of the default profile has
no badge, label offset 8 and a background starting at 2; after `set_has_scene_change true` and
then `set_has_scene_change false` (badge text 20 pixels wide) the badge nodes are gone again but
the label offset is 35 and the background starts at -25. -/
theorem badge_on_off_does_not_restore :
    (demo_marker false)._scene_change = none
    ∧ (demo_marker false)._label_offset = 8
    ∧ (demo_marker false)._name_background.x0 = 2
    ∧ (set_has_scene_change (demo_env false) false
        (set_has_scene_change (demo_env false) true (demo_marker false)))._scene_change = none
    ∧ (set_has_scene_change (demo_env false) false
        (set_has_scene_change (demo_env false) true (demo_marker false)))._label_offset = 35
    ∧ (set_has_scene_change (demo_env false) false
        (set_has_scene_change (demo_env false) true (demo_marker false)))._name_background.x0
        = -25 := by
  obtain ⟨h1, h2, h3, h4, h5, h6⟩ := demo_marker_label
  refine ⟨h1, h2, h6, (label_offset_badge_on_off _ _ h1).2, ?_, ?_⟩
  · rw [(label_offset_badge_on_off _ _ h1).1, h2]
    norm_num [demo_env]
  · rw [background_x0_badge_on_off _ rfl _ h3 (by rw [h4]; norm_num) h1, h2, h5]
    norm_num [demo_env]

/-- C8: for every marker, `set_has_scene_change true` twice in a row leaves the marker that one
call leaves. The first call creates the two badge nodes and adds the width of the badge rectangle
to the label offset if the marker had no badge nodes; the second call creates no node and leaves
the label offset alone. -/
theorem set_has_scene_change_true_twice (env : Env) (m : Marker) :
    set_has_scene_change env true (set_has_scene_change env true m)
      = set_has_scene_change env true m
    ∧ (set_has_scene_change env true m)._label_offset
        = (if m._scene_change = none then
            m._label_offset + ((env.pixel_size_width "MIDI" : ℚ) + 7)
          else m._label_offset)
    ∧ (set_has_scene_change env true m).nodes_created
        = (if m._scene_change = none then m.nodes_created + 2 else m.nodes_created)
    ∧ (set_has_scene_change env true (set_has_scene_change env true m))._label_offset
        = (set_has_scene_change env true m)._label_offset
    ∧ (set_has_scene_change env true (set_has_scene_change env true m)).nodes_created
        = (set_has_scene_change env true m).nodes_created := by
  have hsome : (set_has_scene_change env true m)._scene_change ≠ none := by
    have h := set_has_scene_change_isSome env true m
    intro hn
    rw [hn] at h
    simp at h
  have heq : set_has_scene_change env true (set_has_scene_change env true m)
      = set_has_scene_change env true m := by
    have h := (set_has_scene_change_frame env true m).2.2.2.2
    conv_lhs => rw [set_has_scene_change, with_have_scene_change_eq_self _ true h]
    unfold set_has_scene_change
    exact setup_name_display_idem env _
  refine ⟨heq, ?_, ?_, ?_, ?_⟩
  · rw [set_has_scene_change_label_offset]; simp
  · rw [set_has_scene_change_nodes_created]; simp
  · rw [heq]
  · rw [heq]

/-- C9: for every marker (any type, either profile, badge wanted or not, badge nodes present or
not, any limits and name), `setup_name_display` run twice leaves exactly the marker that one run
leaves: the same label offset, name item, background, badge nodes and node count. -/
theorem setup_name_display_idempotent (env : Env) (m : Marker) :
    setup_name_display env (setup_name_display env m) = setup_name_display env m :=
  setup_name_display_idem env m

end Marker

/-! ## Shapes -/

namespace Marker

/-- C10: for each of the eleven types, `add_polygon` builds a polygon whose outline is the one of
the `switch`, is not empty, and is closed: its first point is its last point. -/
theorem add_polygon_outline_closed (env : Env) (type : MarkerType) (m : Marker) :
    ∃ mark : Polygon, (add_polygon env type m).mark = some mark
      ∧ mark.points = add_polygon_points type
      ∧ mark.points ≠ []
      ∧ mark.points.head? = mark.points.getLast? := by
  refine ⟨_, rfl, rfl, ?_, ?_⟩ <;> cases type <;> simp [add_polygon_points]

/-- C11: `add_polygon` is defined for each of the eleven types and builds the table of the
specification: the polygon has the listed outline, and `_shift` and `_label_offset` get the listed
shift (3, 0 or 17) and label offset. -/
theorem add_polygon_eq_spec_table (env : Env) (type : MarkerType) (m : Marker) :
    (add_polygon env type m).mark.map (fun mark => mark.points) = some (spec_outline type)
    ∧ (add_polygon env type m)._shift = spec_shift type
    ∧ (add_polygon env type m)._label_offset = spec_label_offset type := by
  refine ⟨?_, ?_, ?_⟩
  · cases type <;> simp [add_polygon, add_polygon_points, spec_outline, _marker_height] <;>
      norm_num
  · exact add_polygon_shift_eq_spec type
  · cases type <;>
      norm_num [add_polygon, add_polygon_label_offset, spec_label_offset, _marker_height]

/-- C20: the shift of the type PunchOut is no x coordinate of its outline. `add_polygon` gives the
outline (0,0)(12,0)(12,12)(0,0) and the shift 17: every vertex lies left of the shift, so the
anchor at pixel position plus shift is 5 pixels right of the glyph. For each of the other ten
types the shift is the x coordinate of a vertex. -/
theorem add_polygon_PunchOut_shift_off_outline :
    add_polygon_points MarkerType.PunchOut = [⟨0, 0⟩, ⟨12, 0⟩, ⟨12, 12⟩, ⟨0, 0⟩]
    ∧ add_polygon_shift MarkerType.PunchOut = 17
    ∧ (∀ p ∈ add_polygon_points MarkerType.PunchOut, p.x ≠ add_polygon_shift MarkerType.PunchOut)
    ∧ (∀ p ∈ add_polygon_points MarkerType.PunchOut,
        p.x + 5 ≤ add_polygon_shift MarkerType.PunchOut)
    ∧ (∀ type : MarkerType, type ≠ MarkerType.PunchOut →
        ∃ p ∈ add_polygon_points type, p.x = add_polygon_shift type) := by
  refine ⟨?_, ?_, ?_, ?_, ?_⟩
  · simp [add_polygon_points]
    norm_num
  · simp [add_polygon_shift, _marker_height]
  · intro p hp
    simp only [add_polygon_points, List.mem_cons, List.mem_singleton, List.not_mem_nil,
      or_false] at hp
    rcases hp with h | h | h | h <;> subst h <;> norm_num [add_polygon_shift, _marker_height]
  · intro p hp
    simp only [add_polygon_points, List.mem_cons, List.mem_singleton, List.not_mem_nil,
      or_false] at hp
    rcases hp with h | h | h | h <;> subst h <;> norm_num [add_polygon_shift, _marker_height]
  · intro type ht
    cases type <;> simp [add_polygon_points, add_polygon_shift, _marker_height] at ht ⊢ <;>
      norm_num

end Marker

/-! ## Label limits and anchor side -/

namespace Marker

theorem limit_with_left (m : Marker) (l : ℚ) (hside : m.label_on_left = true) :
    ({ m with _left_label_limit := l } : Marker).limit = l := by
  have h : ({ m with _left_label_limit := l } : Marker).label_on_left = true := hside
  unfold limit
  rw [h]
  rfl

/-- On a marker with its label on the left `set_left_label_limit` is `setup_name_display` after
the store of the limit. -/
theorem set_left_label_limit_of_left (env : Env) (p : ℚ) (m : Marker)
    (hside : m.label_on_left = true) :
    set_left_label_limit env p m
      = setup_name_display env
          { m with _left_label_limit := if p - _marker_height < 0 then 0 else p - _marker_height } := by
  have h : ({ m with _left_label_limit :=
      if p - _marker_height < 0 then 0 else p - _marker_height } : Marker).label_on_left
      = true := hside
  unfold set_left_label_limit
  simp only [h]
  rfl

/-- On a marker with its label on the right `set_left_label_limit` only stores the limit. -/
theorem set_left_label_limit_of_right (env : Env) (p : ℚ) (m : Marker)
    (hside : m.label_on_left = false) :
    set_left_label_limit env p m
      = { m with _left_label_limit := if p - _marker_height < 0 then 0 else p - _marker_height } := by
  have h : ({ m with _left_label_limit :=
      if p - _marker_height < 0 then 0 else p - _marker_height } : Marker).label_on_left
      = false := hside
  unfold set_left_label_limit
  simp only [h]
  rfl

/-- On a marker with its label on the left `set_right_label_limit` only stores the limit. -/
theorem set_right_label_limit_of_left (env : Env) (p : ℚ) (m : Marker)
    (hside : m.label_on_left = true) :
    set_right_label_limit env p m
      = { m with _right_label_limit := if p - _marker_height < 0 then 0 else p - _marker_height } := by
  have h : ({ m with _right_label_limit :=
      if p - _marker_height < 0 then 0 else p - _marker_height } : Marker).label_on_left
      = true := hside
  unfold set_right_label_limit
  simp only [h]
  rfl

/-- The limit that `set_left_label_limit` stores, whatever the side of the label. -/
theorem set_left_label_limit_stored (env : Env) (p : ℚ) (m : Marker) :
    (set_left_label_limit env p m)._left_label_limit
      = if p - _marker_height < 0 then 0 else p - _marker_height := by
  cases hside : m.label_on_left
  · rw [set_left_label_limit_of_right env p m hside]
  · rw [set_left_label_limit_of_left env p m hside, (setup_name_display_frame env _).2.2.2.1]

/-- The limit that `set_right_label_limit` stores, whatever the side of the label. -/
theorem set_right_label_limit_stored (env : Env) (p : ℚ) (m : Marker) :
    (set_right_label_limit env p m)._right_label_limit
      = if p - _marker_height < 0 then 0 else p - _marker_height := by
  cases hside : m.label_on_left
  · rw [set_right_label_limit_of_right env p m hside, (setup_name_display_frame env _).2.2.2.2.1]
  · rw [set_right_label_limit_of_left env p m hside]

theorem stored_limit_nonneg (p : ℚ) :
    (0 : ℚ) ≤ if p - _marker_height < 0 then 0 else p - _marker_height := by
  split_ifs with h
  · exact le_refl 0
  · exact not_lt.mp h

theorem stored_limit_of_nonpos (p : ℚ) (hp : p ≤ 0) :
    (if p - _marker_height < 0 then 0 else p - _marker_height) = (0 : ℚ) := by
  have h : p - _marker_height < 0 := by unfold _marker_height; linarith
  simp [h]

/-- With a limit of zero and a measured width that is not negative, the name item is hidden. -/
theorem setup_name_display_hidden_of_limit_zero (env : Env) (m : Marker) (h0 : m.limit = 0)
    (hwidth : 0 ≤ env.pixel_width m._name) :
    name_width env m = 0 ∧ (setup_name_display env m)._name_item.visible = false := by
  have hw : (0 : ℚ) ≤ (env.pixel_width m._name : ℚ) := by exact_mod_cast hwidth
  have hz : name_width env m = 0 := by
    rw [name_width_eq_raw, h0, min_eq_right, double_to_int_zero]
    unfold raw_width name_padding
    split <;> linarith
  refine ⟨hz, ?_⟩
  rw [setup_name_display_visible, hz]
  rfl

theorem demo_env_pixel_width_End (trx : Bool) : (demo_env trx).pixel_width "End" = 18 := by
  cases trx <;> decide

theorem demo_end_marker_fields (trx : Bool) :
    (demo_end_marker trx)._type = MarkerType.SessionEnd ∧ (demo_end_marker trx)._name = "End"
    ∧ (demo_end_marker trx).label_on_left = true := by
  have h1 : (demo_end_marker trx)._type = MarkerType.SessionEnd := (ctor_flags _ _ _ _ _ _).1
  refine ⟨h1, ?_, ?_⟩
  · unfold demo_end_marker ctor
    simp only [set_name]
    rw [(setup_name_display_frame _ _).2.2.1]
  · simp [label_on_left, h1]

theorem demo_marker_right (trx : Bool) : (demo_marker trx).label_on_left = false := by
  simp [label_on_left, (demo_marker_fields trx).1]

/-- C12: `label_on_left` is true exactly for the types SessionEnd, RangeEnd, LoopEnd and PunchOut
and false exactly for the other seven, and the width of the name that `setup_name_display`
computes is capped by the left limit when `label_on_left` is true and by the right limit
otherwise. -/
theorem label_on_left_iff_and_limit (env : Env) (m : Marker) :
    (m.label_on_left = true ↔
      (m._type = MarkerType.SessionEnd ∨ m._type = MarkerType.RangeEnd
        ∨ m._type = MarkerType.LoopEnd ∨ m._type = MarkerType.PunchOut))
    ∧ (m.label_on_left = false ↔
      (m._type = MarkerType.Mark ∨ m._type = MarkerType.Tempo ∨ m._type = MarkerType.Meter
        ∨ m._type = MarkerType.SessionStart ∨ m._type = MarkerType.RangeStart
        ∨ m._type = MarkerType.LoopStart ∨ m._type = MarkerType.PunchIn))
    ∧ m.limit = (if m.label_on_left = true then m._left_label_limit else m._right_label_limit)
    ∧ name_width env m
        = double_to_int (min (raw_width env m)
            (if m.label_on_left = true then m._left_label_limit else m._right_label_limit)) := by
  refine ⟨?_, ?_, rfl, ?_⟩
  · unfold label_on_left
    cases m._type <;> simp
  · unfold label_on_left
    cases m._type <;> simp
  · rw [name_width_eq_raw]
    rfl

/-- C14: the limit of the side without the label only gets stored. On a marker with its label on
the right `set_left_label_limit p` changes `_left_label_limit` and nothing else: the name item
(visibility, position, clamp width), the label offset, the background and the right limit stay;
the same holds for `set_right_label_limit p` on a marker with its label on the left. -/
theorem label_limit_of_other_side (env : Env) (p : ℚ) (mr ml : Marker)
    (hr : mr.label_on_left = false) (hl : ml.label_on_left = true) :
    (set_left_label_limit env p mr
        = { mr with
            _left_label_limit := if p - _marker_height < 0 then 0 else p - _marker_height }
      ∧ (set_left_label_limit env p mr)._name_item = mr._name_item
      ∧ (set_left_label_limit env p mr)._label_offset = mr._label_offset
      ∧ (set_left_label_limit env p mr)._name_background = mr._name_background
      ∧ (set_left_label_limit env p mr)._right_label_limit = mr._right_label_limit)
    ∧ (set_right_label_limit env p ml
        = { ml with
            _right_label_limit := if p - _marker_height < 0 then 0 else p - _marker_height }
      ∧ (set_right_label_limit env p ml)._name_item = ml._name_item
      ∧ (set_right_label_limit env p ml)._label_offset = ml._label_offset
      ∧ (set_right_label_limit env p ml)._name_background = ml._name_background
      ∧ (set_right_label_limit env p ml)._left_label_limit = ml._left_label_limit) := by
  rw [set_left_label_limit_of_right env p mr hr, set_right_label_limit_of_left env p ml hl]
  exact ⟨⟨rfl, rfl, rfl, rfl, rfl⟩, rfl, rfl, rfl, rfl, rfl⟩

/-- C14, at concrete markers: the Mark marker "Verse" with 5 pixels to its left and the SessionEnd
marker "End" with 5 pixels to its right keep their labels. -/
theorem label_limit_of_other_side_witness :
    (demo_marker false).label_on_left = false
    ∧ (demo_end_marker false).label_on_left = true
    ∧ (set_left_label_limit (demo_env false) 5 (demo_marker false))._name_item
        = (demo_marker false)._name_item
    ∧ (set_left_label_limit (demo_env false) 5 (demo_marker false))._name_background
        = (demo_marker false)._name_background
    ∧ (set_right_label_limit (demo_env false) 5 (demo_end_marker false))._name_item
        = (demo_end_marker false)._name_item
    ∧ (set_right_label_limit (demo_env false) 5 (demo_end_marker false))._name_background
        = (demo_end_marker false)._name_background :=
  ⟨demo_marker_right false, (demo_end_marker_fields false).2.2,
    (label_limit_of_other_side (demo_env false) 5 _ _ (demo_marker_right false)
      (demo_end_marker_fields false).2.2).1.2.1,
    (label_limit_of_other_side (demo_env false) 5 _ _ (demo_marker_right false)
      (demo_end_marker_fields false).2.2).1.2.2.2.1,
    (label_limit_of_other_side (demo_env false) 5 _ _ (demo_marker_right false)
      (demo_end_marker_fields false).2.2).2.2.1,
    (label_limit_of_other_side (demo_env false) 5 _ _ (demo_marker_right false)
      (demo_end_marker_fields false).2.2).2.2.2.2.1⟩

/-- C16: a limit that is zero or negative is stored as zero and hides the label. For `p ≤ 0`,
`set_right_label_limit p` on a marker with its label on the right, and `set_left_label_limit p`
on a marker with its label on the left, store exactly 0 and leave the name item hidden (the
measured width of the name not being negative); and for every `q` and every marker the stored
limits are not negative. -/
theorem label_limit_nonpos_hides (env : Env) (p : ℚ) (mr ml : Marker)
    (hr : mr.label_on_left = false) (hl : ml.label_on_left = true) (hp : p ≤ 0)
    (hwr : 0 ≤ env.pixel_width mr._name) (hwl : 0 ≤ env.pixel_width ml._name) :
    (set_right_label_limit env p mr)._right_label_limit = 0
    ∧ (set_right_label_limit env p mr)._name_item.visible = false
    ∧ (set_left_label_limit env p ml)._left_label_limit = 0
    ∧ (set_left_label_limit env p ml)._name_item.visible = false
    ∧ ∀ (q : ℚ) (m : Marker),
        0 ≤ (set_right_label_limit env q m)._right_label_limit
        ∧ 0 ≤ (set_left_label_limit env q m)._left_label_limit := by
  refine ⟨?_, ?_, ?_, ?_, ?_⟩
  · rw [set_right_label_limit_stored, stored_limit_of_nonpos p hp]
  · rw [set_right_label_limit_of_right env p mr hr]
    exact (setup_name_display_hidden_of_limit_zero env _
      ((limit_with_right mr _ hr).trans (stored_limit_of_nonpos p hp)) hwr).2
  · rw [set_left_label_limit_stored, stored_limit_of_nonpos p hp]
  · rw [set_left_label_limit_of_left env p ml hl]
    exact (setup_name_display_hidden_of_limit_zero env _
      ((limit_with_left ml _ hl).trans (stored_limit_of_nonpos p hp)) hwl).2
  · intro q m
    rw [set_right_label_limit_stored, set_left_label_limit_stored]
    exact ⟨stored_limit_nonneg q, stored_limit_nonneg q⟩

/-- C16, at concrete markers: a limit of -3 on the Mark marker "Verse" (right) and on the
SessionEnd marker "End" (left). -/
theorem label_limit_nonpos_hides_witness :
    (demo_marker false).label_on_left = false
    ∧ (demo_end_marker false).label_on_left = true
    ∧ (-3 : ℚ) ≤ 0
    ∧ 0 ≤ (demo_env false).pixel_width (demo_marker false)._name
    ∧ 0 ≤ (demo_env false).pixel_width (demo_end_marker false)._name
    ∧ (set_right_label_limit (demo_env false) (-3) (demo_marker false))._right_label_limit = 0
    ∧ (set_right_label_limit (demo_env false) (-3) (demo_marker false))._name_item.visible
        = false
    ∧ (set_left_label_limit (demo_env false) (-3) (demo_end_marker false))._left_label_limit = 0
    ∧ (set_left_label_limit (demo_env false) (-3) (demo_end_marker false))._name_item.visible
        = false := by
  have h1 := demo_marker_right false
  have h2 := (demo_end_marker_fields false).2.2
  have h3 : (-3 : ℚ) ≤ 0 := by norm_num
  have h4 : 0 ≤ (demo_env false).pixel_width (demo_marker false)._name := by
    rw [(demo_marker_fields false).2, demo_env_pixel_width_Verse]; decide
  have h5 : 0 ≤ (demo_env false).pixel_width (demo_end_marker false)._name := by
    rw [(demo_end_marker_fields false).2.1, demo_env_pixel_width_End]; decide
  have h := label_limit_nonpos_hides (demo_env false) (-3) _ _ h1 h2 h3 h4 h5
  exact ⟨h1, h2, h3, h4, h5, h.1, h.2.1, h.2.2.1, h.2.2.2.1⟩

end Marker

/-! ## Label position and names of width zero -/

namespace Marker

/-- The label fields of a marker fresh from the constructor, either profile. -/
theorem ctor_fields (env : Env) (g : ℚ) (rgba : Nat) (name : String) (type : MarkerType)
    (frame : Int) :
    (ctor env g rgba name type frame)._name = name
    ∧ (ctor env g rgba name type frame)._left_label_limit = DBL_MAX
    ∧ (ctor env g rgba name type frame)._right_label_limit = DBL_MAX
    ∧ (ctor env g rgba name type frame)._have_scene_change = false
    ∧ (ctor env g rgba name type frame)._scene_change = none
    ∧ (ctor env g rgba name type frame)._label_offset
        = (if env.trx then name_padding else add_polygon_label_offset type) := by
  obtain ⟨m4, h, h1, -, h3, h4, h5, h6, h7, -⟩ :=
    ctor_eq_setup_name_display env g rgba name type frame
  obtain ⟨-, -, f3, f4, f5, f6, -⟩ := setup_name_display_frame env m4
  obtain ⟨b1, b2, -⟩ := setup_name_display_badge_fields env m4
  rw [h]
  refine ⟨f3.trans h1, f4.trans h3, f5.trans h4, f6.trans h5, ?_, ?_⟩
  · have hs := setup_scene_change_isSome env m4
    rw [h5] at hs
    rw [b2]
    simpa using hs
  · rw [b1, setup_scene_change_label_offset, h5, h7]
    simp

/-- The limit of a marker fresh from the constructor is `DBL_MAX`, whatever its side. -/
theorem ctor_limit (env : Env) (g : ℚ) (rgba : Nat) (name : String) (type : MarkerType)
    (frame : Int) : (ctor env g rgba name type frame).limit = DBL_MAX := by
  obtain ⟨-, h2, h3, -⟩ := ctor_fields env g rgba name type frame
  unfold limit
  split
  · exact h2
  · exact h3

/-- The width of the name of a marker fresh from the constructor is its raw width, as long as that
is within `DBL_MAX`. -/
theorem name_width_ctor (env : Env) (g : ℚ) (rgba : Nat) (name : String) (type : MarkerType)
    (frame : Int)
    (h : (env.pixel_width name : ℚ) + (if env.trx then 2 * name_padding else 2) ≤ DBL_MAX) :
    (name_width env (ctor env g rgba name type frame) : ℚ)
      = (env.pixel_width name : ℚ) + (if env.trx then 2 * name_padding else 2) := by
  have hn := (ctor_fields env g rgba name type frame).1
  have hr : raw_width env (ctor env g rgba name type frame)
      = (env.pixel_width name : ℚ) + (if env.trx then 2 * name_padding else 2) := by
    rw [raw_width, hn]
  rw [name_width_of_le_limit env _ (by rw [hr, ctor_limit]; exact h), hr]

/-- In the alternate profile a shown name item sits at the label offset. -/
theorem setup_name_display_position_x_of_trx (env : Env) (m : Marker) (htrx : env.trx = true)
    (hw : name_width env m ≠ 0) :
    (setup_name_display env m)._name_item.position.x = (setup_name_display env m)._label_offset := by
  unfold setup_name_display setup_name_item
  simp [htrx, hw]

/-- In the default profile a shown name item on the left sits at minus its width. -/
theorem setup_name_display_position_x_of_left (env : Env) (m : Marker) (htrx : env.trx = false)
    (hside : m.label_on_left = true) (hw : name_width env m ≠ 0) :
    (setup_name_display env m)._name_item.position.x = -(name_width env m : ℚ) := by
  have h1 : (setup_scene_change env m).label_on_left = true := by
    rw [label_on_left_congr m _ (setup_scene_change_frame env m).2.1]; exact hside
  unfold setup_name_display setup_name_item
  simp [htrx, hw, h1]

theorem label_offset_setup_name_display_of_no_badge (env : Env) (m : Marker)
    (h : m._have_scene_change = false) :
    (setup_name_display env m)._label_offset = m._label_offset := by
  rw [(setup_name_display_badge_fields env m).1, setup_scene_change_label_offset, h]
  simp

theorem demo_end_marker_name_width :
    name_width (demo_env true) (demo_end_marker true) = 38
    ∧ name_width (demo_env false) (demo_end_marker false) = 20 := by
  constructor
  · have h := name_width_ctor (demo_env true) 0 0xff0000ff "End" MarkerType.SessionEnd 1000
      (by rw [demo_env_pixel_width_End]; norm_num [demo_env, name_padding, DBL_MAX])
    rw [demo_env_pixel_width_End] at h
    have h' : (name_width (demo_env true) (demo_end_marker true) : ℚ) = ((38 : Int) : ℚ) := by
      rw [demo_end_marker, h]; norm_num [demo_env, name_padding]
    exact_mod_cast h'
  · have h := name_width_ctor (demo_env false) 0 0xff0000ff "End" MarkerType.SessionEnd 1000
      (by rw [demo_env_pixel_width_End]; norm_num [demo_env, name_padding, DBL_MAX])
    rw [demo_env_pixel_width_End] at h
    have h' : (name_width (demo_env false) (demo_end_marker false) : ℚ) = ((20 : Int) : ℚ) := by
      rw [demo_end_marker, h]; norm_num [demo_env, name_padding]
    exact_mod_cast h'

/-- C13, as stated, fails: in the alternate profile the SessionEnd marker "End" has its label on
the left and a name of width 38, and after `setup_name_display` its name item sits at the label
offset 10, not at -38. -/
theorem name_item_x_of_left_counterexample :
    (demo_end_marker true).label_on_left = true
    ∧ name_width (demo_env true) (demo_end_marker true) = 38
    ∧ (setup_name_display (demo_env true) (demo_end_marker true))._name_item.position.x = 10
    ∧ (setup_name_display (demo_env true) (demo_end_marker true))._name_item.position.x
        ≠ -(name_width (demo_env true) (demo_end_marker true) : ℚ) := by
  have hw := demo_end_marker_name_width.1
  have hx : (setup_name_display (demo_env true) (demo_end_marker true))._name_item.position.x
      = 10 := by
    have hb : (demo_end_marker true)._have_scene_change = false :=
      (ctor_fields _ _ _ _ _ _).2.2.2.1
    have ho : (demo_end_marker true)._label_offset = 10 := by
      unfold demo_end_marker
      rw [(ctor_fields _ _ _ _ _ _).2.2.2.2.2]
      simp [demo_env, name_padding]
    rw [setup_name_display_position_x_of_trx _ _ rfl (by rw [hw]; norm_num),
      label_offset_setup_name_display_of_no_badge _ _ hb, ho]
  refine ⟨(demo_end_marker_fields true).2.2, hw, hx, ?_⟩
  rw [hx, hw]
  norm_num

/-- C13, amended: for every marker with its label on the left whose name has a width other than
zero, after `setup_name_display` the name item sits at minus that width in the default profile,
and at the label offset in the alternate profile. -/
theorem name_item_x_of_left (env : Env) (m : Marker) (hside : m.label_on_left = true)
    (hw : name_width env m ≠ 0) :
    (env.trx = false →
      (setup_name_display env m)._name_item.position.x = -(name_width env m : ℚ))
    ∧ (env.trx = true →
      (setup_name_display env m)._name_item.position.x
        = (setup_name_display env m)._label_offset) :=
  ⟨fun htrx => setup_name_display_position_x_of_left env m htrx hside hw,
    fun htrx => setup_name_display_position_x_of_trx env m htrx hw⟩

/-- C13, amended, at a concrete marker: in the default profile the SessionEnd marker "End", name
of width 20, gets its name item at -20. -/
theorem name_item_x_of_left_witness :
    (demo_end_marker false).label_on_left = true
    ∧ name_width (demo_env false) (demo_end_marker false) ≠ 0
    ∧ (setup_name_display (demo_env false) (demo_end_marker false))._name_item.position.x
        = -20 := by
  have hside := (demo_end_marker_fields false).2.2
  have hw : name_width (demo_env false) (demo_end_marker false) ≠ 0 := by
    rw [demo_end_marker_name_width.2]; norm_num
  refine ⟨hside, hw, ?_⟩
  rw [(name_item_x_of_left (demo_env false) _ hside hw).1 rfl, demo_end_marker_name_width.2]
  norm_num

theorem demo_env_pixel_width_empty (trx : Bool) : (demo_env trx).pixel_width "" = 0 := by
  cases trx <;> decide

/-- The width of a name that measures zero pixels is the margin of the profile capped by the
limit, truncated. -/
theorem name_width_of_zero_width (env : Env) (m : Marker) (h0 : env.pixel_width m._name = 0) :
    name_width env m
      = double_to_int (min (if env.trx then 2 * name_padding else 2) m.limit) := by
  rw [name_width_eq_raw, raw_width, h0]
  simp

/-- C17, as stated, fails: in the default profile the Mark marker with the empty name, which
measures 0 pixels, gets a name of width 2 from `setup_name_display`, and its name item is
shown. -/
theorem zero_width_name_counterexample :
    (demo_env false).pixel_width (demo_empty_marker false)._name = 0
    ∧ name_width (demo_env false) (demo_empty_marker false) = 2
    ∧ (setup_name_display (demo_env false) (demo_empty_marker false))._name_item.visible
        = true := by
  have hn : (demo_empty_marker false)._name = "" := (ctor_fields _ _ _ _ _ _).1
  have hw : name_width (demo_env false) (demo_empty_marker false) = 2 := by
    have h := name_width_ctor (demo_env false) 0 0xff0000ff "" MarkerType.Mark 1000
      (by rw [demo_env_pixel_width_empty]; norm_num [demo_env, DBL_MAX])
    rw [demo_env_pixel_width_empty] at h
    have h' : (name_width (demo_env false) (demo_empty_marker false) : ℚ) = ((2 : Int) : ℚ) := by
      rw [demo_empty_marker, h]; norm_num [demo_env]
    exact_mod_cast h'
  refine ⟨by rw [hn, demo_env_pixel_width_empty], hw, ?_⟩
  rw [setup_name_display_visible, hw]
  rfl

/-- C17, amended: for every marker whose name measures 0 pixels, the width that
`setup_name_display` computes is the integer part of the margin of the profile (2, or 20 in the
alternate profile) capped by the limit. With a limit of at least 1 it is not zero and the name
item is shown, clamped to it; with a limit from 0 up to but not including 1 it is zero and the
name item is hidden. -/
theorem zero_width_name (env : Env) (m : Marker) (h0 : env.pixel_width m._name = 0) :
    name_width env m
      = double_to_int (min (if env.trx then 2 * name_padding else 2) m.limit)
    ∧ (1 ≤ m.limit →
        name_width env m ≠ 0
        ∧ (setup_name_display env m)._name_item.visible = true
        ∧ (setup_name_display env m)._name_item.clamped_width = (name_width env m : ℚ))
    ∧ (0 ≤ m.limit → m.limit < 1 →
        name_width env m = 0 ∧ (setup_name_display env m)._name_item.visible = false) := by
  have hnw := name_width_of_zero_width env m h0
  have hmargin : (2 : ℚ) ≤ (if env.trx then 2 * name_padding else 2) := by
    unfold name_padding
    split <;> norm_num
  refine ⟨hnw, ?_, ?_⟩
  · intro h1
    have hmin : (1 : ℚ) ≤ min (if env.trx then 2 * name_padding else 2) m.limit :=
      le_min (by linarith) h1
    have hne : name_width env m ≠ 0 := by
      rw [hnw, double_to_int_of_nonneg _ (by linarith)]
      have : (1 : Int) ≤ Int.floor (min (if env.trx then 2 * name_padding else 2) m.limit) :=
        Int.le_floor.mpr (by exact_mod_cast hmin)
      omega
    refine ⟨hne, ?_, setup_name_display_clamped_width env m hne⟩
    rw [setup_name_display_visible]
    simp [hne]
  · intro hl0 hl1
    have hz : name_width env m = 0 := by
      rw [hnw, min_eq_right (by linarith), double_to_int_of_nonneg _ hl0]
      exact Int.floor_eq_zero_iff.mpr ⟨hl0, hl1⟩
    refine ⟨hz, ?_⟩
    rw [setup_name_display_visible, hz]
    rfl

/-- C17, amended, at a concrete marker: the Mark marker with the empty name, whose limit is
`DBL_MAX`. -/
theorem zero_width_name_witness :
    (demo_env false).pixel_width (demo_empty_marker false)._name = 0
    ∧ 1 ≤ (demo_empty_marker false).limit
    ∧ name_width (demo_env false) (demo_empty_marker false) ≠ 0
    ∧ (setup_name_display (demo_env false) (demo_empty_marker false))._name_item.visible
        = true := by
  have hn : (demo_empty_marker false)._name = "" := (ctor_fields _ _ _ _ _ _).1
  have h0 : (demo_env false).pixel_width (demo_empty_marker false)._name = 0 := by
    rw [hn, demo_env_pixel_width_empty]
  have h1 : 1 ≤ (demo_empty_marker false).limit := by
    unfold demo_empty_marker
    rw [ctor_limit]
    norm_num [DBL_MAX]
  have h := (zero_width_name (demo_env false) (demo_empty_marker false) h0).2.1 h1
  exact ⟨h0, h1, h.1, h.2.1⟩

end Marker

/-! ## Repositioning -/

namespace Marker

/-- The line half of a mutator leaves the label alone. -/
theorem setup_line_label_frame (env : Env) (m : Marker) :
    (setup_line env m)._label_offset = m._label_offset
    ∧ (setup_line env m)._name_item = m._name_item
    ∧ (setup_line env m)._name_background = m._name_background
    ∧ (setup_line env m)._scene_change = m._scene_change
    ∧ (setup_line env m)._name = m._name
    ∧ (setup_line env m)._left_label_limit = m._left_label_limit
    ∧ (setup_line env m)._right_label_limit = m._right_label_limit
    ∧ (setup_line env m)._have_scene_change = m._have_scene_change
    ∧ (setup_line env m).mark = m.mark := by
  unfold setup_line
  split
  · simp
  · split <;> simp

/-- Setting up the line twice is setting it up once. -/
theorem setup_line_idempotent (env : Env) (m : Marker) :
    setup_line env (setup_line env m) = setup_line env m := by
  unfold setup_line
  split
  · next h => cases hl : m._track_canvas_line <;> simp [h, hl]
  · next h => cases hl : m._track_canvas_line <;> simp [h, hl]

/-- The line does not depend on the stored time. -/
theorem setup_line_with_frame_position (env : Env) (f : Int) (m : Marker) :
    setup_line env { m with frame_position := f } = { setup_line env m with frame_position := f } := by
  unfold setup_line
  split
  · next h => cases hl : m._track_canvas_line <;> simp [h, hl]
  · next h => cases hl : m._track_canvas_line <;> simp [h, hl]

/-- Storing the pixel position that a marker and its group already have changes nothing. -/
theorem with_unit_position_eq_self (m : Marker) (u : ℚ) (hu : m.unit_position = u)
    (hg : m.group.position.x = u) :
    ({ m with
        unit_position := u
        group := ⟨⟨u, m.group.position.y⟩, m.group.visible⟩ } : Marker) = m := by
  obtain ⟨⟨⟨x, y⟩, v⟩, _⟩ := m
  simp_all

theorem set_position_fields (env : Env) (f : Int) (m : Marker) :
    (set_position env f m).frame_position = f
    ∧ (set_position env f m).unit_position = env.sample_to_pixel f - m._shift
    ∧ (set_position env f m).group.position.x = env.sample_to_pixel f - m._shift
    ∧ (set_position env f m)._shift = m._shift := by
  simp [set_position]

/-- On a marker that is already in place `set_position` is `setup_line` and the store of the
time. -/
theorem set_position_of_placed (env : Env) (f : Int) (m : Marker)
    (hu : m.unit_position = env.sample_to_pixel f - m._shift)
    (hg : m.group.position.x = env.sample_to_pixel f - m._shift) :
    set_position env f m = { setup_line env m with frame_position := f } := by
  unfold set_position
  simp only []
  rw [with_unit_position_eq_self m _ hu hg]

/-- Moving a marker twice to the same time is moving it once. -/
theorem set_position_idempotent (env : Env) (f : Int) (m : Marker) :
    set_position env f (set_position env f m) = set_position env f m := by
  obtain ⟨-, h2, h3, h4⟩ := set_position_fields env f m
  rw [set_position_of_placed env f _ (by rw [h2, h4]) (by rw [h3, h4])]
  have h : set_position env f m
      = { setup_line env
            { m with
              unit_position := env.sample_to_pixel f - m._shift
              group := ⟨⟨env.sample_to_pixel f - m._shift, m.group.position.y⟩, m.group.visible⟩ }
          with frame_position := f } := rfl
  rw [h, setup_line_with_frame_position, setup_line_idempotent]

/-- C18: `reposition` keeps the time, the selection, visibility and line flags, the label offset,
the name item, the background and the badge; it puts the pixel position of the marker and of its
group at `sample_to_pixel` of the stored time minus `_shift`; and `reposition` twice is
`reposition` once. -/
theorem reposition_idempotent_keeps_label (env : Env) (m : Marker) :
    (reposition env m).frame_position = m.frame_position
    ∧ (reposition env m)._selected = m._selected
    ∧ (reposition env m)._shown = m._shown
    ∧ (reposition env m)._line_shown = m._line_shown
    ∧ (reposition env m)._label_offset = m._label_offset
    ∧ (reposition env m)._name_item = m._name_item
    ∧ (reposition env m)._name_background = m._name_background
    ∧ (reposition env m)._scene_change = m._scene_change
    ∧ (reposition env m).unit_position = env.sample_to_pixel m.frame_position - m._shift
    ∧ (reposition env m).group.position.x = env.sample_to_pixel m.frame_position - m._shift
    ∧ reposition env (reposition env m) = reposition env m := by
  have hl := fun X => setup_line_label_frame env X
  refine ⟨rfl, ?_, ?_, ?_, ?_, ?_, ?_, ?_, ?_, ?_, ?_⟩
  · simp [reposition, set_position]
  · simp [reposition, set_position]
  · simp [reposition, set_position]
  · simp [reposition, set_position, hl]
  · simp [reposition, set_position, hl]
  · simp [reposition, set_position, hl]
  · simp [reposition, set_position, hl]
  · exact (set_position_fields env _ m).2.1
  · exact (set_position_fields env _ m).2.2.1
  · have h : (reposition env m).frame_position = m.frame_position := rfl
    conv_lhs => rw [reposition, h]
    exact set_position_idempotent env _ m

end Marker

/-! ## Line colour -/

namespace Marker

/-- When the condition of `setup_line` holds, the line gets the colour of the rule. -/
theorem setup_line_outline_color (env : Env) (m : Marker)
    (h : ((env.trx && m._type == MarkerType.Mark)
          || (m._shown && ((!env.trx && m._selected) || m._line_shown))) = true) :
    (setup_line env m)._track_canvas_line.map (fun l => l.outline_color)
      = some (spec_line_color env m) := by
  unfold setup_line spec_line_color
  simp only [h, if_true]
  cases m._track_canvas_line <;> simp

/-- After `setup_line` the line colour invariant holds, whatever the marker was. -/
theorem line_color_ok_setup_line (env : Env) (m : Marker) : line_color_ok env (setup_line env m) := by
  intro l hl hv
  have hs : (setup_line env m).line_shown = true := by simp [line_shown, hl, hv]
  rw [line_shown_setup_line] at hs
  have hc := setup_line_outline_color env m hs
  rw [hl] at hc
  have h1 : spec_line_color env (setup_line env m) = spec_line_color env m := by
    simp [spec_line_color]
  rw [h1]
  simpa using hc

theorem ctor_color (env : Env) (g : ℚ) (rgba : Nat) (name : String) (type : MarkerType)
    (frame : Int) : (ctor env g rgba name type frame)._color = rgba := by
  have h1 := fun m => (setup_name_display_pos_frame env m)
  unfold ctor
  simp only [set_name, h1]
  cases env.trx <;> by_cases hT : type = MarkerType.Mark <;>
    simp [hT, set_color_rgba, add_polygon]

/-- On a selected marker `set_color_rgba` stores the colour and leaves the line as it is. -/
theorem set_color_rgba_of_selected (env : Env) (c : Nat) (m : Marker) (h : m._selected = true) :
    (set_color_rgba env c m)._track_canvas_line = m._track_canvas_line
    ∧ (set_color_rgba env c m)._color = c
    ∧ (set_color_rgba env c m)._selected = true
    ∧ (set_color_rgba env c m)._type = m._type := by
  simp [set_color_rgba, h]

/-- The line colour invariant reads the line, the colour and the selection only. -/
theorem line_color_ok_congr (env : Env) (m m' : Marker)
    (h1 : m'._track_canvas_line = m._track_canvas_line) (h2 : m'._color = m._color)
    (h3 : m'._selected = m._selected) (h : line_color_ok env m) : line_color_ok env m' := by
  intro l hl hv
  have := h l (h1 ▸ hl) hv
  simpa [spec_line_color, h2, h3] using this

/-- In the default profile `set_color_rgba` keeps the line colour invariant. -/
theorem line_color_ok_set_color_rgba (env : Env) (htrx : env.trx = false) (c : Nat) (m : Marker)
    (h : line_color_ok env m) : line_color_ok env (set_color_rgba env c m) := by
  intro l hl hv
  cases hs : m._selected
  · cases hline : m._track_canvas_line with
    | none => simp [set_color_rgba, hs, hline] at hl
    | some l0 =>
      simp [set_color_rgba, hs, hline] at hl
      subst hl
      simp [spec_line_color, htrx, set_color_rgba, hs]
  · have hl' : m._track_canvas_line = some l := by
      simpa [set_color_rgba, hs] using hl
    have := h l hl' hv
    simpa [spec_line_color, htrx, set_color_rgba, hs] using this

/-- In the default profile every mutator keeps the line colour invariant. -/
theorem line_color_ok_apply (env : Env) (htrx : env.trx = false) (op : Op) (m : Marker)
    (h : line_color_ok env m) : line_color_ok env (op.apply env m) := by
  have hn := fun X => setup_name_display_pos_frame env X
  cases op with
  | set_selected s => exact line_color_ok_setup_line env _
  | set_show_line s => exact line_color_ok_setup_line env _
  | canvas_height_set x => exact line_color_ok_setup_line env _
  | «show» => exact line_color_ok_setup_line env _
  | hide => exact line_color_ok_setup_line env _
  | set_position f =>
    exact line_color_ok_congr env (setup_line env _) _ rfl rfl rfl (line_color_ok_setup_line env _)
  | reposition =>
    exact line_color_ok_congr env (setup_line env _) _ rfl rfl rfl (line_color_ok_setup_line env _)
  | set_color_rgba c => exact line_color_ok_set_color_rgba env htrx c m h
  | set_name n =>
    exact line_color_ok_congr env m _ (hn _).2.2.2.2.2.2.1 (hn _).2.2.2.2.2.2.2.1 (hn _).2.2.2.1 h
  | set_has_scene_change yn =>
    exact line_color_ok_congr env m _ (hn _).2.2.2.2.2.2.1 (hn _).2.2.2.2.2.2.2.1 (hn _).2.2.2.1 h
  | set_left_label_limit p =>
    cases hside : m.label_on_left
    · simp only [Op.apply]
      rw [set_left_label_limit_of_right env p m hside]
      exact line_color_ok_congr env m _ rfl rfl rfl h
    · simp only [Op.apply]
      rw [set_left_label_limit_of_left env p m hside]
      exact line_color_ok_congr env m _ (hn _).2.2.2.2.2.2.1 (hn _).2.2.2.2.2.2.2.1
        (hn _).2.2.2.1 h
  | set_right_label_limit p =>
    cases hside : m.label_on_left
    · simp only [Op.apply]
      rw [set_right_label_limit_of_right env p m hside]
      exact line_color_ok_congr env m _ (hn _).2.2.2.2.2.2.1 (hn _).2.2.2.2.2.2.2.1
        (hn _).2.2.2.1 h
    · simp only [Op.apply]
      rw [set_right_label_limit_of_left env p m hside]
      exact line_color_ok_congr env m _ rfl rfl rfl h

/-- In the default profile the line colour invariant holds for every marker built by the
constructor and taken through any sequence of mutator calls. -/
theorem line_color_ok_default_profile (env : Env) (htrx : env.trx = false) (g : ℚ) (rgba : Nat)
    (name : String) (type : MarkerType) (frame : Int) (ops : List Op) :
    line_color_ok env (run env ops (ctor env g rgba name type frame)) := by
  have h0 : line_color_ok env (ctor env g rgba name type frame) := by
    intro l hl
    rw [(ctor_flags env g rgba name type frame).2.2.2.2] at hl
    cases hl
  generalize ctor env g rgba name type frame = m at h0
  induction ops generalizing m with
  | nil => exact h0
  | cons op rest ih => exact ih _ (line_color_ok_apply env htrx op m h0)

/-- C15: in the alternate profile `set_color_rgba` on a selected marker leaves the line with the
old colour. The Mark marker "Verse", colour 0xff0000ff, is selected, which puts its line on screen
in colour 0xff0000ff; `set_color_rgba 0x00ff00ff` then stores the new colour but skips the line,
so the line on screen is not in the colour of the marker and the invariant is broken; the next
`reposition` runs `setup_line`, which colours the line 0x00ff00ff. -/
theorem set_color_rgba_selected_alternate_profile :
    (set_color_rgba (demo_env true) 0x00ff00ff
        (set_selected (demo_env true) true (demo_marker true))).line_shown = true
    ∧ (set_color_rgba (demo_env true) 0x00ff00ff
        (set_selected (demo_env true) true (demo_marker true)))._color = 0x00ff00ff
    ∧ (set_color_rgba (demo_env true) 0x00ff00ff
        (set_selected (demo_env true) true (demo_marker true)))._track_canvas_line.map
          (fun l => l.outline_color) = some 0xff0000ff
    ∧ ¬ line_color_ok (demo_env true)
        (set_color_rgba (demo_env true) 0x00ff00ff
          (set_selected (demo_env true) true (demo_marker true)))
    ∧ (reposition (demo_env true)
        (set_color_rgba (demo_env true) 0x00ff00ff
          (set_selected (demo_env true) true (demo_marker true))))._track_canvas_line.map
          (fun l => l.outline_color) = some 0x00ff00ff := by
  have ht : (demo_marker true)._type = MarkerType.Mark := (demo_marker_fields true).1
  have hc : (demo_marker true)._color = 0xff0000ff := ctor_color _ _ _ _ _ _
  have hsel : (set_selected (demo_env true) true (demo_marker true))._selected = true := by
    simp [set_selected]
  have hshown1 : (set_selected (demo_env true) true (demo_marker true)).line_shown = true := by
    simp [set_selected, line_shown_setup_line, ht, demo_env]
  have hcol1 : (set_selected (demo_env true) true (demo_marker true))._track_canvas_line.map
      (fun l => l.outline_color) = some 0xff0000ff := by
    unfold set_selected
    rw [setup_line_outline_color _ _ (by simp [ht, demo_env])]
    simp [spec_line_color, demo_env, hc]
  obtain ⟨h1, h2, h3, h4⟩ := set_color_rgba_of_selected (demo_env true) 0x00ff00ff _ hsel
  have hshown2 : (set_color_rgba (demo_env true) 0x00ff00ff
      (set_selected (demo_env true) true (demo_marker true))).line_shown = true := by
    unfold line_shown
    rw [h1]
    exact hshown1
  refine ⟨hshown2, h2, by rw [h1]; exact hcol1, ?_, ?_⟩
  · intro hok
    cases hl : (set_color_rgba (demo_env true) 0x00ff00ff
        (set_selected (demo_env true) true (demo_marker true)))._track_canvas_line with
    | none => simp [line_shown, hl] at hshown2
    | some l =>
      have hv : l.visible = true := by simpa [line_shown, hl] using hshown2
      have hcl : l.outline_color = 0xff0000ff := by
        rw [← h1, hl] at hcol1
        simpa using hcol1
      have := hok l hl hv
      rw [hcl, spec_line_color, h2] at this
      simp [demo_env] at this
  · have hr : ∀ X : Marker, (reposition (demo_env true) X)._track_canvas_line
        = (setup_line (demo_env true)
            { X with
              unit_position := (demo_env true).sample_to_pixel X.frame_position - X._shift
              group := ⟨⟨(demo_env true).sample_to_pixel X.frame_position - X._shift,
                X.group.position.y⟩, X.group.visible⟩ })._track_canvas_line := fun X => rfl
    have htrx : (demo_env true).trx = true := rfl
    have ht2 : (set_color_rgba (demo_env true) 0x00ff00ff
        (set_selected (demo_env true) true (demo_marker true)))._type = MarkerType.Mark := by
      rw [h4]
      simp [set_selected, ht]
    rw [hr, setup_line_outline_color _ _ (by simp [ht2, htrx])]
    simp [spec_line_color, htrx, h2]

end Marker

/-! ## Destruction -/

namespace Marker

/-- C19: the destructor emits `CatchDeletion` with the marker as its first step and in no later
step, every later step is a `delete`, and each node that the marker owns (the group, its contents,
the line) is released by one of those later steps: while the observers run no node has been
released yet. -/
theorem dtor_emits_once_before_release (m : Marker) :
    ∃ rest : List DtorStep,
      dtor m = DtorStep.CatchDeletion m :: rest
      ∧ (∀ s ∈ rest, ∃ nodes, s = DtorStep.delete nodes)
      ∧ (∀ n ∈ owned_nodes m, ∃ nodes, DtorStep.delete nodes ∈ rest ∧ n ∈ nodes) := by
  refine ⟨_, rfl, ?_, ?_⟩
  · intro s hs
    simp only [List.mem_cons, List.mem_singleton, List.not_mem_nil, or_false] at hs
    rcases hs with h | h
    · exact ⟨_, h⟩
    · exact ⟨_, h⟩
  · intro n hn
    unfold owned_nodes at hn
    rw [List.cons_append, List.mem_cons, List.mem_append] at hn
    rcases hn with h | h | h
    · exact ⟨_, List.mem_cons_self _ _, by rw [h]; exact List.mem_cons_self _ _⟩
    · exact ⟨_, List.mem_cons_self _ _, List.mem_cons_of_mem _ h⟩
    · exact ⟨_, List.mem_cons_of_mem _ (List.mem_cons_self _ _), h⟩

end Marker

/-! ## Badge, label position and hidden labels -/

namespace Marker

theorem set_has_scene_change_visible (env : Env) (yn : Bool) (m : Marker) :
    (set_has_scene_change env yn m)._name_item.visible = !decide (name_width env m = 0) := by
  have h : name_width env ({ m with _have_scene_change := yn } : Marker) = name_width env m :=
    name_width_congr env m _ rfl rfl rfl rfl
  unfold set_has_scene_change
  rw [setup_name_display_visible, h]

/-- In the alternate profile `set_has_scene_change` leaves a shown name item at the label
offset. -/
theorem set_has_scene_change_position_x_of_trx (env : Env) (yn : Bool) (m : Marker)
    (htrx : env.trx = true) (hw : name_width env m ≠ 0) :
    (set_has_scene_change env yn m)._name_item.position.x
      = (set_has_scene_change env yn m)._label_offset := by
  have h : name_width env ({ m with _have_scene_change := yn } : Marker) = name_width env m :=
    name_width_congr env m _ rfl rfl rfl rfl
  exact setup_name_display_position_x_of_trx env _ htrx (by rw [h]; exact hw)

theorem demo_marker_name_width_trx : name_width (demo_env true) (demo_marker true) = 50 := by
  have h := name_width_ctor (demo_env true) 0 0xff0000ff "Verse" MarkerType.Mark 1000
    (by rw [demo_env_pixel_width_Verse]; norm_num [demo_env, name_padding, DBL_MAX])
  rw [demo_env_pixel_width_Verse] at h
  have h' : (name_width (demo_env true) (demo_marker true) : ℚ) = ((50 : Int) : ℚ) := by
    rw [demo_marker, h]; norm_num [demo_env, name_padding]
  exact_mod_cast h'

/-- C21: in the default profile the badge does not move the name label over. The Mark marker
"Verse" has its label on the right and a name of width 32; after `set_has_scene_change true`,
which ends in `setup_name_display`, the label offset is 35 (8 plus the 27 of the badge) but the
shown name item still sits at 8, on top of the badge. In the alternate profile the same call
leaves the name item at the label offset, 37. -/
theorem badge_does_not_move_name_item :
    (set_has_scene_change (demo_env false) true (demo_marker false)).label_on_left = false
    ∧ name_width (demo_env false) (set_has_scene_change (demo_env false) true (demo_marker false))
        = 32
    ∧ (set_has_scene_change (demo_env false) true (demo_marker false))._name_item.visible = true
    ∧ (set_has_scene_change (demo_env false) true (demo_marker false))._label_offset = 35
    ∧ (set_has_scene_change (demo_env false) true (demo_marker false))._name_item.position.x = 8
    ∧ (setup_name_display (demo_env false)
        (set_has_scene_change (demo_env false) true (demo_marker false)))._name_item.position.x
        = 8
    ∧ (set_has_scene_change (demo_env true) true (demo_marker true))._label_offset = 37
    ∧ (set_has_scene_change (demo_env true) true (demo_marker true))._name_item.position.x
        = 37 := by
  obtain ⟨h1, h2, h3, h4, h5, -⟩ := demo_marker_label
  have hside : (set_has_scene_change (demo_env false) true (demo_marker false)).label_on_left
      = false := by
    rw [label_on_left_set_has_scene_change]; exact h3
  have hx : (set_has_scene_change (demo_env false) true (demo_marker false))._name_item.position.x
      = 8 := by
    rw [set_has_scene_change_position_of_right _ _ _ rfl h3, h5]
  have hofft : (set_has_scene_change (demo_env true) true (demo_marker true))._label_offset
      = 37 := by
    rw [set_has_scene_change_label_offset]
    have hn : (demo_marker true)._scene_change = none := (ctor_fields _ _ _ _ _ _).2.2.2.2.1
    have ho : (demo_marker true)._label_offset = 10 := by
      unfold demo_marker
      rw [(ctor_fields _ _ _ _ _ _).2.2.2.2.2]
      simp [demo_env, name_padding]
    simp only [hn, ho, and_self, if_true]
    norm_num [demo_env]
  refine ⟨hside, ?_, ?_, ?_, hx, ?_, hofft, ?_⟩
  · rw [name_width_set_has_scene_change, h4]
  · rw [set_has_scene_change_visible, h4]
    rfl
  · rw [set_has_scene_change_label_offset]
    simp only [h1, h2, and_self, if_true]
    norm_num [demo_env]
  · rw [setup_name_display_position_of_right _ _ rfl hside, hx]
  · rw [set_has_scene_change_position_x_of_trx _ _ _ rfl
      (by rw [demo_marker_name_width_trx]; norm_num), hofft]

/-- C24: when the width that `setup_name_display` computes for the name is 0, the name item is
hidden, the background keeps the `x0` and `x1` it had before the call, and its vertical extent is
set to 0 and 18. -/
theorem background_kept_when_name_hidden (env : Env) (m : Marker) (h : name_width env m = 0) :
    (setup_name_display env m)._name_item.visible = false
    ∧ (setup_name_display env m)._name_background.x0 = m._name_background.x0
    ∧ (setup_name_display env m)._name_background.x1 = m._name_background.x1
    ∧ (setup_name_display env m)._name_background.y0 = 0
    ∧ (setup_name_display env m)._name_background.y1 = 18 := by
  have hb := (setup_scene_change_frame env m).2.2.2.2.1
  unfold setup_name_display setup_name_item
  simp only [h, if_true, hb, true_and]
  norm_num [_marker_height]

/-- C24, at a concrete marker: the Mark marker "Verse", laid out with a background from 2 on, is
given a right limit of 0; the layout then hides the name and leaves the background starting
at 2. -/
theorem background_kept_when_name_hidden_witness :
    name_width (demo_env false)
        ({ demo_marker false with _right_label_limit := 0 } : Marker) = 0
    ∧ (setup_name_display (demo_env false)
        ({ demo_marker false with _right_label_limit := 0 } : Marker))._name_item.visible = false
    ∧ (setup_name_display (demo_env false)
        ({ demo_marker false with _right_label_limit := 0 } : Marker))._name_background.x0 = 2
    ∧ (setup_name_display (demo_env false)
        ({ demo_marker false with _right_label_limit := 0 } : Marker))._name_background.y1
        = 18 := by
  obtain ⟨-, -, h3, -, -, h6⟩ := demo_marker_label
  have hw : name_width (demo_env false)
      ({ demo_marker false with _right_label_limit := 0 } : Marker) = 0 :=
    (setup_name_display_hidden_of_limit_zero (demo_env false) _
      (limit_with_right (demo_marker false) 0 h3)
      (by
        show 0 ≤ (demo_env false).pixel_width (demo_marker false)._name
        rw [(demo_marker_fields false).2, demo_env_pixel_width_Verse]; decide)).1
  have h := background_kept_when_name_hidden (demo_env false) _ hw
  exact ⟨hw, h.1, h.2.1.trans h6, h.2.2.2.2⟩

end Marker

/-! ## Lifetime of the line -/

namespace Marker

/-- After `setup_line` there is a line exactly when there was one or the condition held. -/
theorem setup_line_isSome (env : Env) (m : Marker) :
    (setup_line env m)._track_canvas_line.isSome
      = (m._track_canvas_line.isSome || line_condition env m) := by
  unfold setup_line line_condition
  split
  · next h => simp [h]
  · next h =>
    have h' : ((env.trx && m._type == MarkerType.Mark)
          || (m._shown && ((!env.trx && m._selected) || m._line_shown))) = false := by
      simpa using h
    rw [h']
    cases hl : m._track_canvas_line <;> simp [hl]

/-- The condition reads the type and the three flags only. -/
theorem line_condition_congr (env : Env) (m m' : Marker) (h1 : m'._type = m._type)
    (h2 : m'._shown = m._shown) (h3 : m'._selected = m._selected)
    (h4 : m'._line_shown = m._line_shown) : line_condition env m' = line_condition env m := by
  simp [line_condition, h1, h2, h3, h4]

theorem line_condition_setup_line (env : Env) (m : Marker) :
    line_condition env (setup_line env m) = line_condition env m :=
  line_condition_congr env m _ (by simp) (by simp) (by simp) (by simp)

theorem line_shown_eq_condition (env : Env) (m : Marker) :
    (setup_line env m).line_shown = line_condition env m :=
  line_shown_setup_line env m

/-- The line after `set_position` is the line that `setup_line` leaves on the moved marker. -/
theorem set_position_line (env : Env) (f : Int) (m : Marker) :
    (set_position env f m)._track_canvas_line
      = (setup_line env
          { m with
            unit_position := env.sample_to_pixel f - m._shift
            group := ⟨⟨env.sample_to_pixel f - m._shift, m.group.position.y⟩,
              m.group.visible⟩ })._track_canvas_line := rfl

theorem set_position_flags (env : Env) (f : Int) (m : Marker) :
    (set_position env f m)._type = m._type
    ∧ (set_position env f m)._shown = m._shown
    ∧ (set_position env f m)._selected = m._selected
    ∧ (set_position env f m)._line_shown = m._line_shown := by
  simp [set_position]

/-- A mutator leaves a line behind exactly when there was one before, or when it calls
`setup_line` and the condition holds for the flags it leaves. -/
theorem apply_op_line_isSome (env : Env) (op : Op) (m : Marker) :
    (op.apply env m)._track_canvas_line.isSome
      = (m._track_canvas_line.isSome
          || (op.calls_setup_line && line_condition env (op.apply env m))) := by
  have hn := fun X => setup_name_display_pos_frame env X
  cases op with
  | set_selected s =>
    simp only [Op.apply, Op.calls_setup_line, Bool.true_and, Marker.set_selected]
    rw [setup_line_isSome, line_condition_setup_line]
  | set_show_line s =>
    simp only [Op.apply, Op.calls_setup_line, Bool.true_and, Marker.set_show_line]
    rw [setup_line_isSome, line_condition_setup_line]
  | canvas_height_set x =>
    simp only [Op.apply, Op.calls_setup_line, Bool.true_and, Marker.canvas_height_set]
    rw [setup_line_isSome, line_condition_setup_line]
  | «show» =>
    simp only [Op.apply, Op.calls_setup_line, Bool.true_and, Marker.«show»]
    rw [setup_line_isSome, line_condition_setup_line]
  | hide =>
    simp only [Op.apply, Op.calls_setup_line, Bool.true_and, Marker.hide]
    rw [setup_line_isSome, line_condition_setup_line]
  | set_position f =>
    obtain ⟨h1, h2, h3, h4⟩ := set_position_flags env f m
    simp only [Op.apply, Op.calls_setup_line, Bool.true_and]
    rw [set_position_line, setup_line_isSome, line_condition_congr env m _ h1 h2 h3 h4]
    rfl
  | reposition =>
    obtain ⟨h1, h2, h3, h4⟩ := set_position_flags env m.frame_position m
    simp only [Op.apply, Op.calls_setup_line, Bool.true_and, Marker.reposition]
    rw [set_position_line, setup_line_isSome, line_condition_congr env m _ h1 h2 h3 h4]
    rfl
  | set_color_rgba c =>
    simp only [Op.apply, Op.calls_setup_line, Bool.false_and, Bool.or_false,
      Marker.set_color_rgba]
    cases m._selected <;> cases m._track_canvas_line <;> rfl
  | set_name n =>
    simp only [Op.apply, Op.calls_setup_line, Bool.false_and, Bool.or_false, Marker.set_name]
    rw [(hn _).2.2.2.2.2.2.1]
  | set_has_scene_change yn =>
    simp only [Op.apply, Op.calls_setup_line, Bool.false_and, Bool.or_false,
      Marker.set_has_scene_change]
    rw [(hn _).2.2.2.2.2.2.1]
  | set_left_label_limit p =>
    simp only [Op.apply, Op.calls_setup_line, Bool.false_and, Bool.or_false]
    cases hside : m.label_on_left
    · rw [set_left_label_limit_of_right env p m hside]
    · rw [set_left_label_limit_of_left env p m hside, (hn _).2.2.2.2.2.2.1]
  | set_right_label_limit p =>
    simp only [Op.apply, Op.calls_setup_line, Bool.false_and, Bool.or_false]
    cases hside : m.label_on_left
    · rw [set_right_label_limit_of_right env p m hside, (hn _).2.2.2.2.2.2.1]
    · rw [set_right_label_limit_of_left env p m hside]

/-- A line that exists survives every sequence of mutator calls. -/
theorem run_line_isSome (env : Env) (ops : List Op) (m : Marker)
    (h : m._track_canvas_line.isSome = true) :
    (run env ops m)._track_canvas_line.isSome = true := by
  induction ops generalizing m with
  | nil => exact h
  | cons op rest ih =>
    apply ih
    rw [apply_op_line_isSome, h]
    rfl

theorem run_append (env : Env) (ops1 ops2 : List Op) (m : Marker) :
    run env (ops1 ++ ops2) m = run env ops2 (run env ops1 m) := by
  simp [run, List.foldl_append]

/-- C22: the extension line is created lazily and no mutator destroys it. A marker leaves the
constructor without a line; a mutator call leaves a line behind exactly when there was one before
it, or when the mutator calls `setup_line` and the condition of `setup_line` holds; and a line
that exists after some calls exists after every further sequence of calls. -/
theorem line_created_lazily_never_destroyed (env : Env) :
    (∀ (g : ℚ) (rgba : Nat) (name : String) (type : MarkerType) (frame : Int),
      (ctor env g rgba name type frame)._track_canvas_line = none)
    ∧ (∀ (op : Op) (m : Marker),
      (op.apply env m)._track_canvas_line.isSome
        = (m._track_canvas_line.isSome
            || (op.calls_setup_line && line_condition env (op.apply env m))))
    ∧ (∀ (ops1 ops2 : List Op) (m : Marker),
      (run env ops1 m)._track_canvas_line.isSome = true →
        (run env (ops1 ++ ops2) m)._track_canvas_line.isSome = true)
    ∧ (∀ (ops : List Op) (m : Marker), m._track_canvas_line = none →
      (∀ ops1 op ops2, ops = ops1 ++ op :: ops2 →
        (op.calls_setup_line && line_condition env (run env (ops1 ++ [op]) m)) = false) →
      (run env ops m)._track_canvas_line = none) := by
  refine ⟨fun g rgba name type frame => (ctor_flags env g rgba name type frame).2.2.2.2,
    apply_op_line_isSome env, ?_, ?_⟩
  · intro ops1 ops2 m h
    rw [run_append]
    exact run_line_isSome env ops2 _ h
  · intro ops
    induction ops using List.reverseRecOn with
    | nil => intro m h _; exact h
    | append_singleton ops op ih =>
      intro m h hall
      have hprev : (run env ops m)._track_canvas_line = none := by
        apply ih m h
        intro ops1 op' ops2 heq
        exact hall ops1 op' (ops2 ++ [op]) (by rw [heq]; simp)
      have hlast := hall ops op [] rfl
      have hstep := apply_op_line_isSome env op (run env ops m)
      rw [run_append] at hlast ⊢
      have hr : run env [op] (run env ops m) = op.apply env (run env ops m) := rfl
      rw [hr] at hlast ⊢
      rw [hlast, hprev] at hstep
      simpa using hstep

end Marker

/-! ## The forced line of a Mark -/

namespace Marker

theorem set_position_line_shown (env : Env) (f : Int) (m : Marker) :
    (set_position env f m).line_shown = line_condition env m := by
  have h : (set_position env f m).line_shown
      = (setup_line env
          { m with
            unit_position := env.sample_to_pixel f - m._shift
            group := ⟨⟨env.sample_to_pixel f - m._shift, m.group.position.y⟩,
              m.group.visible⟩ }).line_shown := rfl
  rw [h, line_shown_eq_condition]
  rfl

/-- In the default profile a marker that is shown with its line forced has the condition of
`setup_line`. -/
theorem line_condition_of_forced (env : Env) (m : Marker) (h1 : m._shown = true)
    (h2 : m._line_shown = true) : line_condition env m = true := by
  simp [line_condition, h1, h2]

/-- A marker that is shown, with its line forced and on screen, stays so under every mutator
other than `hide` and `set_show_line false`. -/
theorem forced_line_stays (env : Env) (op : Op) (m : Marker)
    (hop : op ≠ Op.hide ∧ op ≠ Op.set_show_line false)
    (h : m._shown = true ∧ m._line_shown = true ∧ m.line_shown = true) :
    (op.apply env m)._shown = true ∧ (op.apply env m)._line_shown = true
    ∧ (op.apply env m).line_shown = true := by
  obtain ⟨h1, h2, h3⟩ := h
  have hn := fun X => setup_name_display_pos_frame env X
  have hkeep : ∀ X : Marker, X._shown = m._shown → X._line_shown = m._line_shown →
      X._track_canvas_line = m._track_canvas_line →
      X._shown = true ∧ X._line_shown = true ∧ X.line_shown = true := by
    intro X a b c
    refine ⟨a.trans h1, b.trans h2, ?_⟩
    unfold line_shown at h3 ⊢
    rw [c]
    exact h3
  cases op with
  | set_selected s =>
    refine ⟨by simp [Op.apply, Marker.set_selected, h1],
      by simp [Op.apply, Marker.set_selected, h2], ?_⟩
    simp only [Op.apply, Marker.set_selected]
    rw [line_shown_eq_condition]
    exact line_condition_of_forced env _ h1 h2
  | set_show_line s =>
    cases s with
    | false => exact absurd rfl hop.2
    | true =>
      refine ⟨by simp [Op.apply, Marker.set_show_line, h1],
        by simp [Op.apply, Marker.set_show_line], ?_⟩
      simp only [Op.apply, Marker.set_show_line]
      rw [line_shown_eq_condition]
      exact line_condition_of_forced env _ h1 rfl
  | canvas_height_set x =>
    refine ⟨by simp [Op.apply, Marker.canvas_height_set, h1],
      by simp [Op.apply, Marker.canvas_height_set, h2], ?_⟩
    simp only [Op.apply, Marker.canvas_height_set]
    rw [line_shown_eq_condition]
    exact line_condition_of_forced env _ h1 h2
  | «show» =>
    refine ⟨by simp [Op.apply, Marker.«show»], by simp [Op.apply, Marker.«show», h2], ?_⟩
    simp only [Op.apply, Marker.«show»]
    rw [line_shown_eq_condition]
    exact line_condition_of_forced env _ rfl h2
  | hide => exact absurd rfl hop.1
  | set_position f =>
    obtain ⟨-, f2, -, f4⟩ := set_position_flags env f m
    refine ⟨f2.trans h1, f4.trans h2, ?_⟩
    simp only [Op.apply]
    rw [set_position_line_shown]
    exact line_condition_of_forced env _ h1 h2
  | reposition =>
    obtain ⟨-, f2, -, f4⟩ := set_position_flags env m.frame_position m
    refine ⟨f2.trans h1, f4.trans h2, ?_⟩
    simp only [Op.apply, Marker.reposition]
    rw [set_position_line_shown]
    exact line_condition_of_forced env _ h1 h2
  | set_color_rgba c =>
    refine ⟨h1, h2, ?_⟩
    simp only [Op.apply, Marker.set_color_rgba, line_shown] at h3 ⊢
    cases hs : m._selected <;> cases hl : m._track_canvas_line <;> simp_all
  | set_name n =>
    exact hkeep _ (hn _).2.2.2.2.1 (hn _).2.2.2.2.2.1 (hn _).2.2.2.2.2.2.1
  | set_has_scene_change yn =>
    exact hkeep _ (hn _).2.2.2.2.1 (hn _).2.2.2.2.2.1 (hn _).2.2.2.2.2.2.1
  | set_left_label_limit p =>
    simp only [Op.apply]
    cases hside : m.label_on_left
    · rw [set_left_label_limit_of_right env p m hside]
      exact hkeep _ rfl rfl rfl
    · rw [set_left_label_limit_of_left env p m hside]
      exact hkeep _ (hn _).2.2.2.2.1 (hn _).2.2.2.2.2.1 (hn _).2.2.2.2.2.2.1
  | set_right_label_limit p =>
    simp only [Op.apply]
    cases hside : m.label_on_left
    · rw [set_right_label_limit_of_right env p m hside]
      exact hkeep _ (hn _).2.2.2.2.1 (hn _).2.2.2.2.2.1 (hn _).2.2.2.2.2.2.1
    · rw [set_right_label_limit_of_left env p m hside]
      exact hkeep _ rfl rfl rfl

theorem forced_line_stays_run (env : Env) (ops : List Op) (m : Marker)
    (hops : ∀ op ∈ ops, op ≠ Op.hide ∧ op ≠ Op.set_show_line false)
    (h : m._shown = true ∧ m._line_shown = true ∧ m.line_shown = true) :
    (run env ops m)._shown = true ∧ (run env ops m)._line_shown = true
    ∧ (run env ops m).line_shown = true := by
  induction ops generalizing m with
  | nil => exact h
  | cons op rest ih =>
    exact ih _ (fun o ho => hops o (List.mem_cons_of_mem _ ho))
      (forced_line_stays env op m (hops op (List.mem_cons_self _ _)) h)

/-- C23: the constructor sets the forced line flag exactly for the type Mark and leaves the marker
unselected, not shown and without line. In the default profile, `show` puts the line of a fresh
Mark marker on screen, the line stays on screen through every sequence of mutator calls that
contains neither `hide` nor `set_show_line false`, `hide` takes it off screen, and so does
`set_show_line false` right after `show`; `show` on a fresh marker of any other type puts no line
on screen. -/
theorem Mark_line_forced_from_construction (env : Env) (htrx : env.trx = false) (g : ℚ)
    (rgba : Nat) (name : String) (frame : Int) (ops : List Op)
    (hops : ∀ op ∈ ops, op ≠ Op.hide ∧ op ≠ Op.set_show_line false) :
    (∀ type : MarkerType,
      (ctor env g rgba name type frame)._line_shown = decide (type = MarkerType.Mark)
      ∧ (ctor env g rgba name type frame)._selected = false
      ∧ (ctor env g rgba name type frame)._shown = false
      ∧ (ctor env g rgba name type frame).line_shown = false)
    ∧ (Marker.«show» env (ctor env g rgba name MarkerType.Mark frame)).line_shown = true
    ∧ (run env ops
        (Marker.«show» env (ctor env g rgba name MarkerType.Mark frame))).line_shown = true
    ∧ (hide env (run env ops
        (Marker.«show» env (ctor env g rgba name MarkerType.Mark frame)))).line_shown = false
    ∧ (set_show_line env false
        (Marker.«show» env (ctor env g rgba name MarkerType.Mark frame))).line_shown = false
    ∧ (∀ type : MarkerType, type ≠ MarkerType.Mark →
        (Marker.«show» env (ctor env g rgba name type frame)).line_shown = false) := by
  have hflags := fun type => ctor_flags env g rgba name type frame
  have hshow : (Marker.«show» env (ctor env g rgba name MarkerType.Mark frame))._shown = true
      ∧ (Marker.«show» env (ctor env g rgba name MarkerType.Mark frame))._line_shown = true
      ∧ (Marker.«show» env (ctor env g rgba name MarkerType.Mark frame)).line_shown = true := by
    refine ⟨by simp [Marker.«show»], by simp [Marker.«show», hflags], ?_⟩
    simp [Marker.«show», line_shown_setup_line, hflags, htrx]
  refine ⟨?_, hshow.2.2, (forced_line_stays_run env ops _ hops hshow).2.2, ?_, ?_, ?_⟩
  · intro type
    obtain ⟨-, h2, h3, h4, h5⟩ := hflags type
    exact ⟨h4, h2, h3, by simp [line_shown, h5]⟩
  · simp [hide, line_shown_setup_line, htrx]
  · simp [set_show_line, Marker.«show», line_shown_setup_line, hflags, htrx]
  · intro type ht
    simp [Marker.«show», line_shown_setup_line, hflags, htrx, ht]

/-- C23, at concrete markers: the Mark marker "Verse" is shown, moved, selected, unselected and
recoloured, and its line is still on screen; the Tempo marker "120" is shown and has no line on
screen. -/
theorem Mark_line_forced_from_construction_witness :
    (demo_env false).trx = false
    ∧ (run (demo_env false)
        [Op.set_position 48000, Op.set_selected true, Op.set_selected false,
          Op.set_color_rgba 0x00ff00ff]
        (Marker.«show» (demo_env false)
          (ctor (demo_env false) 0 0xff0000ff "Verse" MarkerType.Mark 1000))).line_shown = true
    ∧ (Marker.«show» (demo_env false)
        (ctor (demo_env false) 0 0xff0000ff "120" MarkerType.Tempo 1000)).line_shown = false := by
  have hops : ∀ op ∈ [Op.set_position 48000, Op.set_selected true, Op.set_selected false,
      Op.set_color_rgba 0x00ff00ff], op ≠ Op.hide ∧ op ≠ Op.set_show_line false := by
    intro op hop
    simp only [List.mem_cons, List.mem_singleton, List.not_mem_nil, or_false] at hop
    rcases hop with h | h | h | h <;> subst h <;> exact ⟨by simp, by simp⟩
  exact ⟨rfl,
    (Mark_line_forced_from_construction (demo_env false) rfl 0 0xff0000ff "Verse" 1000 _
      hops).2.2.1,
    (Mark_line_forced_from_construction (demo_env false) rfl 0 0xff0000ff "120" 1000 []
      (by simp)).2.2.2.2.2 MarkerType.Tempo (by simp)⟩

end Marker
